import Mathlib

/-!
# Verification of the harvestersSDK-API camera abstraction layer

Shallow embedding of the repository's Python sources:

* `src/base/transport_harvesters.py` — `TransportHarvesters`, the wrapper over
  the Harvesters acquisition library;
* `src/base/camera_base.py` — `CameraBase`, the multi-acquirer registry and
  lifecycle orchestration;
* `src/vendors/at_sensors_3d.py` — `CameraATSensors3D`, the dual-sensor
  vendor specialization;
* `harvestersSDK_api.py` and `src/utils/config_loader.py` — the factory and
  config loading;
* `src/utils/point_cloud_processing.py` — `build_point_cloud_from_frame`.

Python exceptions are modelled by `Except PyErr`; real-valued (numpy float)
arithmetic is modelled by exact rationals `ℚ`; Python dicts keyed by `id(ia)`
are modelled by association lists with insert-or-update semantics; Python list
indexing (including negative indices) is modelled by `pyGet`.
-/

namespace HarvSDK

/-- Python exception values, each carrying its `str(e)` message.
`cameraError`, `connectionError`, `acquisitionError`, `parameterError`
embed the classes of `src/utils/error_handling.py` (the latter three are
subclasses of `CameraError`); the rest are builtin Python exceptions. -/
inductive PyErr where
  | cameraError (msg : String)
  | connectionError (msg : String)
  | acquisitionError (msg : String)
  | parameterError (msg : String)
  | attributeError (msg : String)
  | typeError (msg : String)
  | indexError (msg : String)
  | valueError (msg : String)
  | otherError (msg : String)
deriving Repr, DecidableEq

/-- `str(e)` for the exception: the message it was constructed with. -/
def PyErr.message : PyErr → String
  | .cameraError m | .connectionError m | .acquisitionError m | .parameterError m
  | .attributeError m | .typeError m | .indexError m | .valueError m
  | .otherError m => m

/-- Is the exception an instance of `CameraError` (including its subclasses
`ConnectionError`, `AcquisitionError`, `ParameterError`)? -/
def PyErr.isCameraError : PyErr → Bool
  | .cameraError _ | .connectionError _ | .acquisitionError _ | .parameterError _ => true
  | _ => false

/-- The exception class, with the message forgotten. -/
inductive PyErrKind where
  | cameraError | connectionError | acquisitionError | parameterError
  | attributeError | typeError | indexError | valueError | otherError
deriving Repr, DecidableEq

def PyErr.kind : PyErr → PyErrKind
  | .cameraError _ => .cameraError
  | .connectionError _ => .connectionError
  | .acquisitionError _ => .acquisitionError
  | .parameterError _ => .parameterError
  | .attributeError _ => .attributeError
  | .typeError _ => .typeError
  | .indexError _ => .indexError
  | .valueError _ => .valueError
  | .otherError _ => .otherError

/-- The exception class of a failed computation, `none` on success. -/
def errKind {α : Type} : Except PyErr α → Option PyErrKind
  | .ok _ => none
  | .error e => some e.kind

/-- A computation's outcome with error messages forgotten (used to compare
two runs that differ only in the interpolated text of their error messages). -/
def stripMsg {α : Type} : Except PyErr α → Except PyErrKind α
  | .ok a => .ok a
  | .error e => .error e.kind

/-- GenICam node values (strings, integers, floats-as-rationals, booleans). -/
inductive PyVal where
  | str (s : String)
  | int (n : Int)
  | rat (q : ℚ)
  | bool (b : Bool)
deriving Repr, DecidableEq

/-- One component of a fetched buffer's payload: a 2D image plane of
`width * height` raw values stored row-major in `data`. -/
structure PyComponent where
  width : Nat
  height : Nat
  data : List ℚ
deriving Repr, DecidableEq

/-- A frame as returned by the transport: the list of payload components. -/
abbrev PyFrame := List PyComponent

/-- Python list indexing `l[i]` for `int` indices: non-negative indices count
from the front, negative indices from the back; `none` means `IndexError`. -/
def pyGet {α : Type} (l : List α) (i : Int) : Option α :=
  if 0 ≤ i then l.get? i.toNat
  else if 0 ≤ i + l.length then l.get? (i + l.length).toNat
  else none

/-- Python `dict[k] = v` on a dict represented as an association list:
update the existing entry in place, else append a new one. -/
def dictSet (l : List (Nat × Bool)) (k : Nat) (b : Bool) : List (Nat × Bool) :=
  if l.any (fun p => p.1 == k) then l.map (fun p => if p.1 == k then (k, b) else p)
  else l ++ [(k, b)]

/-- Python `dict.get(k, False)`. -/
def dictGetD (l : List (Nat × Bool)) (k : Nat) : Bool :=
  (l.lookup k).getD false

/-- Python `timeout_ms or self.timeout_ms`: `None` and `0` are falsy. -/
def pyOrTimeout (t : Option Nat) (d : Nat) : Nat :=
  match t with
  | none => d
  | some n => if n = 0 then d else n

/-! ## Device selection (`device_config` dictionaries) -/

/-- The device selection dictionary built by `CameraBase.__init__` from the
`device_name` / `device_serial` / `device_id` config keys (only present keys
are stored). -/
structure DeviceConfig where
  user_defined_name : Option String
  serial_number : Option String
  id : Option String
deriving Repr, DecidableEq

/-- Python truthiness of the dict: an empty dict (or `None`) is falsy. -/
def DeviceConfig.isEmptyDict (c : DeviceConfig) : Bool :=
  c.user_defined_name.isNone && c.serial_number.isNone && c.id.isNone

/-- A device selector as accepted by `CameraBase.connect`: an `int` index or a
device-config dictionary. -/
inductive Selector where
  | byIndex (n : Nat)
  | byConfig (c : DeviceConfig)
deriving Repr, DecidableEq

/-- Python truthiness of a selector value: the int `0` and the empty dict are
falsy. -/
def Selector.isFalsy : Selector → Bool
  | .byIndex n => n == 0
  | .byConfig c => c.isEmptyDict

/-! ## The camera layer (`src/base/camera_base.py`)

`CameraBase` invokes its transport only through the attribute names below
(`initialize`, `create_image_acquirer`, `start_image_acquirer`,
`stop_image_acquirer`, `fetch_from_acquirer`, `destroy_image_acquirer`,
`reset`, `set_node_value(ia, name, value)`, `get_node_value(ia, name)`), so
the camera operations are parametrized over a record of those attributes.
Acquirer handles are identified by their `id(ia)`, a `Nat`. -/

/-- The transport interface as called by `camera_base.py`. Each field is the
outcome of calling that attribute (deterministic per argument). -/
structure CamTransport where
  /-- the transport's `initialize()` attribute -/
  init : Except PyErr Unit
  create_image_acquirer : Selector → Except PyErr Nat
  start_image_acquirer : Nat → Except PyErr Unit
  stop_image_acquirer : Nat → Except PyErr Unit
  fetch_from_acquirer : Nat → Nat → Except PyErr PyFrame
  destroy_image_acquirer : Nat → Except PyErr Unit
  reset : Except PyErr Unit
  set_node_value : Nat → String → PyVal → Except PyErr Unit
  get_node_value : Nat → String → Except PyErr PyVal

/-- The mutable state of a `CameraBase` instance: the `_acquirers` registry
(list of acquirer ids), the `_acquiring_states` dict keyed by `id(ia)`, the
`_initialized` flag, plus the `timeout_ms`, `strict` and `device_config`
fields set in `__init__`. -/
structure CameraState where
  acquirers : List Nat
  acquiring_states : List (Nat × Bool)
  initialized : Bool
  timeout_ms : Nat
  strict : Bool
  device_config : DeviceConfig
deriving Repr, DecidableEq

/-- `self._acquiring_states.get(id(ia), False)`. -/
def CameraState.getAcq (s : CameraState) (ia : Nat) : Bool :=
  dictGetD s.acquiring_states ia

/-- `self._acquiring_states[id(ia)] = b`. -/
def CameraState.setAcq (s : CameraState) (ia : Nat) (b : Bool) : CameraState :=
  { s with acquiring_states := dictSet s.acquiring_states ia b }

/-- `CameraBase.connected`: true iff at least one acquirer is registered. -/
def cb_connected (s : CameraState) : Bool :=
  s.acquirers.length > 0

/-- `CameraBase.acquiring`: `any(self._acquiring_states.values())`. -/
def cb_acquiring (s : CameraState) : Bool :=
  s.acquiring_states.any (fun p => p.2)

/-- `selector = device_selector or self.device_config or 0` in
`CameraBase.connect` (Python `or` falls through falsy values). -/
def resolveSelector (ds : Option Selector) (dc : DeviceConfig) : Selector :=
  match ds with
  | some sel => if sel.isFalsy then
      (if dc.isEmptyDict then .byIndex 0 else .byConfig dc)
    else sel
  | none => if dc.isEmptyDict then .byIndex 0 else .byConfig dc

/-- `CameraBase.connect`: initialize the transport on first call, create an
acquirer for the resolved selector, register it with acquiring state `False`.
Returns the post-call state (mutations persist across exceptions) and the
result: the new acquirer id, or the `ConnectionError` raised. -/
def cb_connect (t : CamTransport) (s : CameraState) (ds : Option Selector) :
    CameraState × Except PyErr Nat :=
  -- _ensure_transport_initialized
  let initStep : CameraState × Except PyErr Unit :=
    if s.initialized then (s, .ok ())
    else match t.init with
      | .ok _ => ({ s with initialized := true }, .ok ())
      | .error e =>
          (s, .error (.connectionError ("Failed to initialize transport: " ++ e.message)))
  match initStep with
  | (s', .error e) =>
      -- the ConnectionError from _ensure_transport_initialized is caught by
      -- connect's own handler and re-wrapped
      (s', .error (.connectionError ("Failed to connect: " ++ e.message)))
  | (s', .ok _) =>
    match t.create_image_acquirer (resolveSelector ds s.device_config) with
    | .error e =>
        (s', .error (.connectionError ("Failed to connect: " ++ e.message)))
    | .ok ia =>
        ({ s' with acquirers := s'.acquirers ++ [ia],
                   acquiring_states := dictSet s'.acquiring_states ia false }, .ok ia)

/-- `CameraBase.start_acquisition(acquirer_index)`. -/
def cb_start_acquisition (t : CamTransport) (s : CameraState) (i : Int) :
    Except PyErr CameraState :=
  if s.acquirers.isEmpty then .error (.cameraError "No acquirers configured.")
  else if (s.acquirers.length : Int) ≤ i then
    .error (.acquisitionError ("Acquirer index " ++ toString i ++ " out of range."))
  else match pyGet s.acquirers i with
    | none => .error (.indexError "list index out of range")
    | some ia =>
      if s.getAcq ia then .ok s  -- already acquiring: warning, return
      else match t.start_image_acquirer ia with
        | .ok _ => .ok (s.setAcq ia true)
        | .error e =>
            .error (.acquisitionError
              ("Failed to start acquisition on acquirer " ++ toString i ++ ": " ++ e.message))

/-- `CameraBase.stop_acquisition(acquirer_index)`. -/
def cb_stop_acquisition (t : CamTransport) (s : CameraState) (i : Int) :
    Except PyErr CameraState :=
  if s.acquirers.isEmpty then .error (.cameraError "No acquirers configured.")
  else if (s.acquirers.length : Int) ≤ i then
    .error (.acquisitionError ("Acquirer index " ++ toString i ++ " out of range."))
  else match pyGet s.acquirers i with
    | none => .error (.indexError "list index out of range")
    | some ia =>
      if ¬ s.getAcq ia then .ok s  -- not acquiring: warning, return
      else match t.stop_image_acquirer ia with
        | .ok _ => .ok (s.setAcq ia false)
        | .error e =>
            .error (.acquisitionError
              ("Failed to stop acquisition on acquirer " ++ toString i ++ ": " ++ e.message))

/-- `CameraBase.get_frame(acquirer_index, timeout_ms)`: fetch a frame from a
specific acquirer (state is not modified). `ok none` is Python returning
`None` in non-strict mode. -/
def cb_get_frame (t : CamTransport) (s : CameraState) (i : Int) (to_ms : Option Nat) :
    Except PyErr (Option PyFrame) :=
  if s.acquirers.isEmpty then .error (.cameraError "No acquirers configured.")
  else if (s.acquirers.length : Int) ≤ i then
    .error (.acquisitionError ("Acquirer index " ++ toString i ++ " out of range."))
  else match pyGet s.acquirers i with
    | none => .error (.indexError "list index out of range")
    | some ia =>
      if ¬ s.getAcq ia then
        .error (.cameraError ("Acquirer " ++ toString i ++ " not acquiring."))
      else match t.fetch_from_acquirer ia (pyOrTimeout to_ms s.timeout_ms) with
        | .ok f => .ok (some f)
        | .error e =>
            if s.strict then
              .error (.acquisitionError
                ("Failed to fetch frame from acquirer " ++ toString i ++ ": " ++ e.message))
            else .ok none

/-- `CameraBase.set_parameter(param_name, value, acquirer_index)`. -/
def cb_set_parameter (t : CamTransport) (s : CameraState)
    (param_name : String) (v : PyVal) (i : Int) : Except PyErr Unit :=
  if s.acquirers.isEmpty then .error (.cameraError "No acquirers configured.")
  else if (s.acquirers.length : Int) ≤ i then
    .error (.parameterError ("Acquirer index " ++ toString i ++ " out of range."))
  else match pyGet s.acquirers i with
    | none => .error (.indexError "list index out of range")
    | some ia =>
      match t.set_node_value ia param_name v with
      | .ok _ => .ok ()
      | .error e =>
          if s.strict then
            .error (.parameterError ("Failed to set parameter " ++ param_name ++ ": " ++ e.message))
          else .ok ()

/-- `CameraBase.get_parameter(param_name, acquirer_index)`; `ok none` is the
non-strict `None` fallback. -/
def cb_get_parameter (t : CamTransport) (s : CameraState)
    (param_name : String) (i : Int) : Except PyErr (Option PyVal) :=
  if s.acquirers.isEmpty then .error (.cameraError "No acquirers configured.")
  else if (s.acquirers.length : Int) ≤ i then
    .error (.parameterError ("Acquirer index " ++ toString i ++ " out of range."))
  else match pyGet s.acquirers i with
    | none => .error (.indexError "list index out of range")
    | some ia =>
      match t.get_node_value ia param_name with
      | .ok v => .ok (some v)
      | .error e =>
          if s.strict then
            .error (.parameterError ("Failed to get parameter " ++ param_name ++ ": " ++ e.message))
          else .ok none

/-- The `except` handler of `CameraBase.acquire_frame`: if the index is in
range and that acquirer is acquiring, attempt `stop_acquisition` and swallow
any exception it raises. -/
def cb_acquireRollback (t : CamTransport) (s : CameraState) (i : Int) : CameraState :=
  if i < (s.acquirers.length : Int) then
    match pyGet s.acquirers i with
    | none => s  -- IndexError inside the handler is swallowed
    | some ia =>
      if s.getAcq ia then
        match cb_stop_acquisition t s i with
        | .ok s' => s'
        | .error _ => s
      else s
  else s

/-- `CameraBase.acquire_frame(acquirer_index, timeout_ms)`:
`start_acquisition` then `get_frame` then `stop_acquisition`; on any failure
the handler rolls back (best effort) and raises `CameraError`. Returns the
post-call state and the result. -/
def cb_acquire_frame (t : CamTransport) (s : CameraState) (i : Int) (to_ms : Option Nat) :
    CameraState × Except PyErr (Option PyFrame) :=
  match cb_start_acquisition t s i with
  | .error e =>
      (cb_acquireRollback t s i, .error (.cameraError ("Failed to acquire frame: " ++ e.message)))
  | .ok s1 =>
    match cb_get_frame t s1 i to_ms with
    | .error e =>
        (cb_acquireRollback t s1 i,
          .error (.cameraError ("Failed to acquire frame: " ++ e.message)))
    | .ok f =>
      match cb_stop_acquisition t s1 i with
      | .error e =>
          (cb_acquireRollback t s1 i,
            .error (.cameraError ("Failed to acquire frame: " ++ e.message)))
      | .ok s2 => (s2, .ok f)

/-! ## The vendor specialization (`src/vendors/at_sensors_3d.py`)

`CameraATSensors3D` stores `self.topology` (lower-cased, defaulting to
`"single_sensor"`); its acquisition overrides dispatch on it and call the
base-class (`super()`) methods above. The topology is passed explicitly. -/

/-- `CameraATSensors3D.start_acquisition`: single-sensor mode delegates to
the base method on the given index; otherwise both acquirers are started,
index 0 first, after checking that two acquirers are registered. The
post-call state is returned even when an exception is raised (a failure at
the second sensor keeps the first sensor's mutation). -/
def at_start_acquisition (t : CamTransport) (topology : String) (s : CameraState)
    (i : Int) : CameraState × Except PyErr Unit :=
  if topology = "single_sensor" then
    match cb_start_acquisition t s i with
    | .ok s' => (s', .ok ())
    | .error e => (s, .error e)
  else if s.acquirers.length < 2 then
    (s, .error (.cameraError "Image acquirers for dual-sensor not configured!"))
  else
    match cb_start_acquisition t s 0 with
    | .error e => (s, .error e)
    | .ok s1 =>
      match cb_start_acquisition t s1 1 with
      | .error e => (s1, .error e)
      | .ok s2 => (s2, .ok ())

/-- `CameraATSensors3D.stop_acquisition`: symmetric to the start override. -/
def at_stop_acquisition (t : CamTransport) (topology : String) (s : CameraState)
    (i : Int) : CameraState × Except PyErr Unit :=
  if topology = "single_sensor" then
    match cb_stop_acquisition t s i with
    | .ok s' => (s', .ok ())
    | .error e => (s, .error e)
  else if s.acquirers.length < 2 then
    (s, .error (.cameraError "Image acquirers for dual-sensor not configured!"))
  else
    match cb_stop_acquisition t s 0 with
    | .error e => (s, .error e)
    | .ok s1 =>
      match cb_stop_acquisition t s1 1 with
      | .error e => (s1, .error e)
      | .ok s2 => (s2, .ok ())

/-- The dict returned by `CameraATSensors3D.get_frames`: the
`secondary_frame` key is present only in dual-sensor mode. -/
structure FramesDict where
  primary_frame : Option PyFrame
  secondary_frame : Option (Option PyFrame)
deriving Repr, DecidableEq

/-- `CameraATSensors3D.get_frames`: fetch from both sensors in dual mode
(acquirer 0 then 1), from acquirer 0 otherwise. -/
def at_get_frames (t : CamTransport) (topology : String) (s : CameraState)
    (to_ms : Option Nat) : Except PyErr FramesDict :=
  if topology = "dual_sensor" then
    if s.acquirers.length < 2 then
      .error (.cameraError "Image acquirers for dual-sensor not configured!")
    else
      match cb_get_frame t s 0 to_ms with
      | .error e => .error e
      | .ok f0 =>
        match cb_get_frame t s 1 to_ms with
        | .error e => .error e
        | .ok f1 => .ok ⟨f0, some f1⟩
  else
    match cb_get_frame t s 0 to_ms with
    | .error e => .error e
    | .ok f0 => .ok ⟨f0, none⟩

/-- The `except` handler of `capture_frames`: `self.stop_acquisition()`
(the vendor override, default index 0) with any exception swallowed; the
stop's mutations up to the point of failure persist. -/
def at_captureRollback (t : CamTransport) (topology : String) (s : CameraState) :
    CameraState :=
  (at_stop_acquisition t topology s 0).1

/-- `CameraATSensors3D.capture_frames(timeout_ms)`: check that two acquirers
are registered, then vendor `start_acquisition()` → `get_frames` → vendor
`stop_acquisition()`; on any failure the handler attempts a vendor stop
(swallowing its errors) and raises `CameraError` wrapping the original
failure. Returns the post-call state and the result. -/
def at_capture_frames (t : CamTransport) (topology : String) (s : CameraState)
    (to_ms : Option Nat) : CameraState × Except PyErr FramesDict :=
  if s.acquirers.length < 2 then
    (at_captureRollback t topology s,
      .error (.cameraError
        "Failed to acquire dual frames: Image acquirers for dual-sensor not configured!"))
  else
    match at_start_acquisition t topology s 0 with
    | (s1, .error e) =>
        (at_captureRollback t topology s1,
          .error (.cameraError ("Failed to acquire dual frames: " ++ e.message)))
    | (s1, .ok _) =>
      match at_get_frames t topology s1 to_ms with
      | .error e =>
          (at_captureRollback t topology s1,
            .error (.cameraError ("Failed to acquire dual frames: " ++ e.message)))
      | .ok frames =>
        match at_stop_acquisition t topology s1 0 with
        | (s2, .error e) =>
            (at_captureRollback t topology s2,
              .error (.cameraError ("Failed to acquire dual frames: " ++ e.message)))
        | (s2, .ok _) => (s2, .ok frames)

/-! ## The transport wrapper (`src/base/transport_harvesters.py`)

`TransportHarvesters` wraps the Harvesters library (`Harvester()`,
`add_file`, `update`, `device_info_list`, `create`, `ia.start/stop/destroy`,
`fetch`, `node_map.get_node`, reading/writing `node.value`). The library's
behavior is an oracle whose calls may raise arbitrary exceptions; the oracle
is deterministic per argument. -/

/-- The device-info entries exposed by `harvester.device_info_list` (the
fields copied into `devices_list` by `list_devices`). -/
structure DeviceInfo where
  id : String
  vendor : String
  model : String
  serial_number : String
  user_defined_name : String
deriving Repr, DecidableEq

/-- A GenICam node as seen through `node_map.get_node`: its writability and
readability flags and the outcome of reading `node.value`. -/
structure GNode where
  is_writable : Bool
  is_readable : Bool
  read_value : Except PyErr PyVal
deriving Repr

/-- A buffer returned by `ia.fetch`: its `payload` may be `None`, otherwise
it carries the component list. -/
structure FetchedBuffer where
  payload : Option (List PyComponent)
deriving Repr, DecidableEq

/-- The Harvesters library as an oracle: the outcome of each underlying call
the wrapper makes. -/
structure SDKOracle where
  /-- `Harvester()` constructor -/
  harvester_ctor : Except PyErr Unit
  /-- `harvester.add_file(cti_path)` -/
  add_file : Except PyErr Unit
  /-- `harvester.update()` -/
  update : Except PyErr Unit
  /-- `harvester.device_info_list` after a successful update -/
  device_info_list : List DeviceInfo
  /-- `harvester.create(idx)`: a fresh `ImageAcquirer` handle id -/
  create : Nat → Except PyErr Nat
  /-- `image_acquirer.start()` -/
  ia_start : Nat → Except PyErr Unit
  /-- `image_acquirer.stop()` -/
  ia_stop : Nat → Except PyErr Unit
  /-- `image_acquirer.destroy()` -/
  ia_destroy : Nat → Except PyErr Unit
  /-- `harvester.reset()` -/
  harvester_reset : Except PyErr Unit
  /-- `image_acquirer.fetch(timeout=...)` given the timeout in ms -/
  fetch : Nat → Nat → Except PyErr FetchedBuffer
  /-- `remote_device.node_map.get_node(name)`: may raise, may return `None` -/
  get_node : Nat → String → Except PyErr (Option GNode)
  /-- `node.value = v` on the node named `name` of acquirer `ia` -/
  node_write : Nat → String → PyVal → Except PyErr Unit

/-- The mutable state of a `TransportHarvesters` instance. `harvester` is
whether `self.harvester` is non-`None`; `image_acquirer` the created handle;
`devices_list` the cached device dicts; the two flags mirror
`_is_connected` / `_is_acquiring`. -/
structure TransportState where
  harvester : Bool
  image_acquirer : Option Nat
  devices_list : List DeviceInfo
  is_connected : Bool
  is_acquiring : Bool
deriving Repr, DecidableEq

/-- `TransportHarvesters.initialize`: no-op if the harvester already exists;
otherwise construct it, add the CTI file and update, wrapping any failure in
`CameraError`. (`self.harvester` is assigned before `add_file`, so it stays
set when a later step fails.) -/
def th_init (o : SDKOracle) (s : TransportState) : TransportState × Except PyErr Unit :=
  if s.harvester then (s, .ok ())
  else match o.harvester_ctor with
    | .error e =>
        (s, .error (.cameraError ("Failed to initialize Harvester: " ++ e.message)))
    | .ok _ =>
      let s' := { s with harvester := true }
      match o.add_file with
      | .error e =>
          (s', .error (.cameraError ("Failed to initialize Harvester: " ++ e.message)))
      | .ok _ =>
        match o.update with
        | .error e =>
            (s', .error (.cameraError ("Failed to initialize Harvester: " ++ e.message)))
        | .ok _ => (s', .ok ())

/-- `TransportHarvesters.list_devices`: initialize if needed, update, then
rebuild `devices_list` from `device_info_list`. Exceptions (from
`initialize` or `update`) propagate unwrapped. -/
def th_list_devices (o : SDKOracle) (s : TransportState) :
    TransportState × Except PyErr (List DeviceInfo) :=
  let step : TransportState × Except PyErr Unit :=
    if ¬ s.harvester then th_init o s else (s, .ok ())
  match step.2 with
  | .error e => (step.1, .error e)
  | .ok _ =>
    match o.update with
    | .error e => (step.1, .error e)
    | .ok _ =>
      if o.device_info_list.isEmpty then
        ({ step.1 with devices_list := [] }, .ok [])
      else
        ({ step.1 with devices_list := o.device_info_list }, .ok o.device_info_list)

/-- Does the device-config dict match the device (`connect_device`'s search
loop: any provided criterion equal to the device's field)? -/
def configMatches (cfg : DeviceConfig) (d : DeviceInfo) : Bool :=
  (match cfg.user_defined_name with
   | some n => n == d.user_defined_name
   | none => false) ||
  (match cfg.serial_number with
   | some n => n == d.serial_number
   | none => false) ||
  (match cfg.id with
   | some n => n == d.id
   | none => false)

/-- First index of `devices` matched by the config, if any. -/
def findMatchIdx (cfg : DeviceConfig) (devices : List DeviceInfo) : Option Nat :=
  devices.findIdx? (fun d => configMatches cfg d)

/-- The error wrapping of `connect_device`'s `except` handler. -/
def connectWrap (e : PyErr) : PyErr :=
  .cameraError ("Failed to connect device: " ++ e.message)

/-- The tail of `connect_device`'s `try` body once the device list has been
fetched: the criteria-matching loop over `devices`, `harvester.create(idx)`
on the first match (then `_is_acquiring = True`), or the no-match
`CameraError`. `s''` is the state after `list_devices`. -/
def th_connect_pick (o : SDKOracle) (c : DeviceConfig) (s'' : TransportState)
    (devices : List DeviceInfo) : TransportState × Except PyErr Nat :=
  match findMatchIdx c devices with
  | some idx =>
    (match o.create idx with
     | .error e => (s'', .error (connectWrap e))
     | .ok ia =>
       ({ s'' with image_acquirer := some ia, is_acquiring := true }, .ok ia))
  | none =>
    (s'', .error (connectWrap (.cameraError
      "Could not find device with provided criteria.")))

/-- The device-selection part of `connect_device`'s `try` body: connect to
the first device when no (truthy) config is given, else run `list_devices`
and search for a criteria match. `s'` is the state after the update. -/
def th_connect_find (o : SDKOracle) (s' : TransportState) (cfg : Option DeviceConfig) :
    TransportState × Except PyErr Nat :=
  match cfg with
  | none =>
    (match o.create 0 with
     | .error e => (s', .error (connectWrap e))
     | .ok ia => ({ s' with image_acquirer := some ia }, .ok ia))
  | some c =>
    if c.isEmptyDict then
      -- an empty dict is falsy: same branch as no config
      (match o.create 0 with
       | .error e => (s', .error (connectWrap e))
       | .ok ia => ({ s' with image_acquirer := some ia }, .ok ia))
    else
      let devStep := th_list_devices o s'
      match devStep.2 with
      | .error e => (devStep.1, .error (connectWrap e))
      | .ok devices => th_connect_pick o c devStep.1 devices

/-- The `try` body of `connect_device` after initialization: update the
device list, fail if it is empty, then select the device. `s'` is the state
after initialization. -/
def th_connect_main (o : SDKOracle) (s' : TransportState) (cfg : Option DeviceConfig) :
    TransportState × Except PyErr Nat :=
  match o.update with
  | .error e => (s', .error (connectWrap e))
  | .ok _ =>
    if o.device_info_list.isEmpty then
      (s', .error (connectWrap (.cameraError "No devices found by Harvester.")))
    else th_connect_find o s' cfg

/-- `TransportHarvesters.connect_device(device_config)`: early-return the
existing acquirer if already connected; otherwise initialize if needed and
run the body (`th_connect_main`). All failures are wrapped in `CameraError`;
a criteria-matched connect sets `_is_acquiring` and never `_is_connected`. -/
def th_connect_device (o : SDKOracle) (s : TransportState) (cfg : Option DeviceConfig) :
    TransportState × Except PyErr Nat :=
  if s.is_connected then
    (s, match s.image_acquirer with
        | some ia => .ok ia
        | none => .ok 0)  -- `return self.image_acquirer` (None is not modelled: unreachable)
  else
    let initStep : TransportState × Except PyErr Unit :=
      if ¬ s.harvester then th_init o s else (s, .ok ())
    match initStep.2 with
    | .error e => (initStep.1, .error (connectWrap e))
    | .ok _ => th_connect_main o initStep.1 cfg

/-- `TransportHarvesters.start_acquisition`. -/
def th_start_acquisition (o : SDKOracle) (s : TransportState) :
    TransportState × Except PyErr Unit :=
  if ¬ s.is_connected then
    (s, .error (.cameraError "No device connected. Call connect_device() first."))
  else if s.is_acquiring then (s, .ok ())
  else
    match s.image_acquirer with
    | none =>
        -- `assert self.image_acquirer is not None` fails inside the `try`
        (s, .error (.cameraError "Failed to start acquisition: "))
    | some ia =>
      match o.ia_start ia with
      | .ok _ => ({ s with is_acquiring := true }, .ok ())
      | .error e =>
          (s, .error (.cameraError ("Failed to start acquisition: " ++ e.message)))

/-- `TransportHarvesters.stop_acquisition`. -/
def th_stop_acquisition (o : SDKOracle) (s : TransportState) :
    TransportState × Except PyErr Unit :=
  if ¬ s.is_connected then (s, .error (.cameraError "No device connected."))
  else if ¬ s.is_acquiring then (s, .ok ())
  else
    match s.image_acquirer with
    | none => (s, .error (.cameraError "Failed to stop acquisition: "))
    | some ia =>
      match o.ia_stop ia with
      | .ok _ => ({ s with is_acquiring := false }, .ok ())
      | .error e =>
          (s, .error (.cameraError ("Failed to stop acquisition: " ++ e.message)))

/-- The tail of `disconnect_device` after the acquirer has been destroyed:
reset the harvester if present, then clear `_is_acquiring`. Failures are
wrapped by the method's `except` handler. -/
def th_disconnect_reset (o : SDKOracle) (s₂ : TransportState) :
    TransportState × Except PyErr Unit :=
  if s₂.harvester then
    match o.harvester_reset with
    | .ok _ => ({ s₂ with harvester := false, is_acquiring := false }, .ok ())
    | .error e =>
        (s₂, .error (.cameraError ("Failed to disconnect transport: " ++ e.message)))
  else ({ s₂ with is_acquiring := false }, .ok ())

/-- The middle of `disconnect_device`: destroy the image acquirer if one
exists, then continue with the harvester reset. -/
def th_disconnect_destroy (o : SDKOracle) (s' : TransportState) :
    TransportState × Except PyErr Unit :=
  match s'.image_acquirer with
  | none => th_disconnect_reset o s'
  | some ia =>
    match o.ia_destroy ia with
    | .ok _ => th_disconnect_reset o { s' with image_acquirer := none }
    | .error e =>
        (s', .error (.cameraError ("Failed to disconnect transport: " ++ e.message)))

/-- `TransportHarvesters.disconnect_device`: stop if acquiring (note that
`stop_acquisition` checks `is_connected`, so its `CameraError` aborts the
body), destroy the acquirer, reset the harvester; failures wrapped. -/
def th_disconnect_device (o : SDKOracle) (s : TransportState) :
    TransportState × Except PyErr Unit :=
  let stopStep : TransportState × Except PyErr Unit :=
    if s.is_acquiring then th_stop_acquisition o s else (s, .ok ())
  match stopStep.2 with
  | .error e =>
      (stopStep.1, .error (.cameraError ("Failed to disconnect transport: " ++ e.message)))
  | .ok _ => th_disconnect_destroy o stopStep.1

/-- `TransportHarvesters.get_frame(timeout_ms)`: guarded by the connected
and acquiring flags; fetch the buffer, require a payload, and return its
component list. All failures inside the `try` are wrapped in `CameraError`
(including the no-payload `CameraError`, which the wrapper re-wraps). -/
def th_get_frame (o : SDKOracle) (s : TransportState) (timeout_ms : Nat) :
    TransportState × Except PyErr (List PyComponent) :=
  if ¬ s.is_connected then (s, .error (.cameraError "No device connected."))
  else if ¬ s.is_acquiring then
    (s, .error (.cameraError "Acquisition not started. Call start_acquisition() first."))
  else
    match s.image_acquirer with
    | none => (s, .error (.cameraError "Failed to fetch frame: "))
    | some ia =>
      match o.fetch ia timeout_ms with
      | .error e => (s, .error (.cameraError ("Failed to fetch frame: " ++ e.message)))
      | .ok buf =>
        match buf.payload with
        | none =>
            (s, .error (.cameraError
              "Failed to fetch frame: Fetched buffer has no payload."))
        | some comps => (s, .ok comps)

/-- `TransportHarvesters.set_node_value(node_name, value)` (state is not
modified, so only the result is returned). -/
def th_set_node_value (o : SDKOracle) (s : TransportState)
    (node_name : String) (v : PyVal) : Except PyErr Unit :=
  match s.image_acquirer with
  | none => .error (.cameraError "Device not connected")
  | some ia =>
    let wrap : PyErr → PyErr :=
      fun e => .cameraError ("Failed to set node " ++ node_name ++ ": " ++ e.message)
    match o.get_node ia node_name with
    | .error e => .error (wrap e)
    | .ok none =>
        .error (wrap (.cameraError ("Node " ++ node_name ++ " is not writable")))
    | .ok (some node) =>
      if node.is_writable then
        match o.node_write ia node_name v with
        | .ok _ => .ok ()
        | .error e => .error (wrap e)
      else
        .error (wrap (.cameraError ("Node " ++ node_name ++ " is not writable")))

/-- `TransportHarvesters.get_node_value(node_name)`. -/
def th_get_node_value (o : SDKOracle) (s : TransportState)
    (node_name : String) : Except PyErr PyVal :=
  match s.image_acquirer with
  | none => .error (.cameraError "Device not connected")
  | some ia =>
    let wrap : PyErr → PyErr :=
      fun e => .cameraError ("Failed to get node " ++ node_name ++ ": " ++ e.message)
    match o.get_node ia node_name with
    | .error e => .error (wrap e)
    | .ok none =>
        .error (wrap (.cameraError ("Node " ++ node_name ++ " is not readable")))
    | .ok (some node) =>
      if node.is_readable then
        match node.read_value with
        | .ok v => .ok v
        | .error e => .error (wrap e)
      else
        .error (wrap (.cameraError ("Node " ++ node_name ++ " is not readable")))

/-! ## The provided transport seen from the camera layer

`camera_base.py` calls transport attributes named `create_image_acquirer`,
`start_image_acquirer`, `stop_image_acquirer`, `fetch_from_acquirer`,
`destroy_image_acquirer` and `reset`, none of which `transport_harvesters.py`
defines on `TransportHarvesters`; such attribute accesses raise
`AttributeError` at call time. `set_node_value` / `get_node_value` exist but
take `(node_name, value)` / `(node_name)`, while the camera layer passes an
extra leading acquirer argument, so those calls raise `TypeError`.
`initialize` exists; its outcome (which depends on the transport's own state
and the library) is the parameter `initResult`. -/
def harvestersCamTransport (initResult : Except PyErr Unit) : CamTransport where
  init := initResult
  create_image_acquirer := fun _ =>
    .error (.attributeError
      "'TransportHarvesters' object has no attribute 'create_image_acquirer'")
  start_image_acquirer := fun _ =>
    .error (.attributeError
      "'TransportHarvesters' object has no attribute 'start_image_acquirer'")
  stop_image_acquirer := fun _ =>
    .error (.attributeError
      "'TransportHarvesters' object has no attribute 'stop_image_acquirer'")
  fetch_from_acquirer := fun _ _ =>
    .error (.attributeError
      "'TransportHarvesters' object has no attribute 'fetch_from_acquirer'")
  destroy_image_acquirer := fun _ =>
    .error (.attributeError
      "'TransportHarvesters' object has no attribute 'destroy_image_acquirer'")
  reset :=
    .error (.attributeError "'TransportHarvesters' object has no attribute 'reset'")
  set_node_value := fun _ _ _ =>
    .error (.typeError "set_node_value() takes 3 positional arguments but 4 were given")
  get_node_value := fun _ _ =>
    .error (.typeError "get_node_value() takes 2 positional arguments but 3 were given")

/-! ## Config loading and the factory
(`src/utils/config_loader.py`, `harvestersSDK_api.py`) -/

/-- A per-sensor entry of a camera's config (`sensor_1` / `sensor_2`). -/
structure SensorEntry where
  user_defined_name : Option String
  genicam_nodes : List (String × PyVal)
deriving Repr, DecidableEq

/-- One entry of the config file's `cameras` mapping. -/
structure CameraEntry where
  vendor : Option String
  scanType : Option String
  topology : Option String
  sensor_1 : Option SensorEntry
  sensor_2 : Option SensorEntry
deriving Repr, DecidableEq

/-- The parsed JSON configuration file: the `transport` CTI paths, the
`library` section, and the `cameras` mapping. -/
structure RootConfig where
  linux_cti_path : Option String
  windows_cti_path : Option String
  library : List (String × PyVal)
  cameras : List (String × CameraEntry)
deriving Repr, DecidableEq

/-- The dict returned by `ConfigLoader.get_api_config`. -/
structure ApiConfigDict where
  cti_path : String
  library : List (String × PyVal)
deriving Repr, DecidableEq

/-- The dict returned by `ConfigLoader.get_device_data`. -/
structure DeviceDataDict where
  device_id : String
  vendor : Option String
  scanType : Option String
  topology : String
  sensor_1 : SensorEntry
  sensor_2 : SensorEntry
deriving Repr, DecidableEq

/-- The dict returned by `ConfigLoader.get_device_genicam`: `sensor_2`
nodes are included only for a dual-sensor topology. -/
structure DeviceGenicamDict where
  sensor_1 : List (String × PyVal)
  sensor_2 : Option (List (String × PyVal))
deriving Repr, DecidableEq

/-- Python `str.lower()`, written over the character list so that it
evaluates by kernel reduction. -/
def pyLower (s : String) : String := ⟨s.data.map Char.toLower⟩

/-- Python `str.strip()`: whitespace removed from both ends, written over
the character list so that it evaluates by kernel reduction. -/
def pyStrip (s : String) : String :=
  ⟨((s.data.dropWhile Char.isWhitespace).reverse.dropWhile Char.isWhitespace).reverse⟩

/-- `ConfigLoader._os_cti_path`: the windows or linux CTI path depending on
`sys.platform`. -/
def os_cti_path (platform_is_windows : Bool) (rc : RootConfig) : Option String :=
  if platform_is_windows then rc.windows_cti_path else rc.linux_cti_path

/-- `ConfigLoader._get_camera_entry`. -/
def get_camera_entry (rc : RootConfig) (device_name_base : String) :
    Except PyErr CameraEntry :=
  match rc.cameras.lookup device_name_base with
  | some entry => .ok entry
  | none =>
      .error (.cameraError
        ("Camera '" ++ device_name_base ++ "' not found in configuration file."))

/-- `ConfigLoader.get_api_config`. -/
def get_api_config (platform_is_windows : Bool) (rc : RootConfig) :
    Except PyErr ApiConfigDict :=
  match os_cti_path platform_is_windows rc with
  | none =>
      .error (.cameraError
        "cti_path não encontrado em transport.\x7blinux_cti_path|windows_cti_path\x7d.")
  | some cti => .ok ⟨cti, rc.library⟩

/-- `ConfigLoader.get_device_data`: the topology is lower-cased and defaults
to `"single_sensor"`; absent sensor sections become empty dicts. -/
def get_device_data (rc : RootConfig) (device_name_base : String) :
    Except PyErr DeviceDataDict :=
  match get_camera_entry rc device_name_base with
  | .error e => .error e
  | .ok entry =>
    .ok { device_id := device_name_base
          vendor := entry.vendor
          scanType := entry.scanType
          topology := pyLower (entry.topology.getD "single_sensor")
          sensor_1 := entry.sensor_1.getD ⟨none, []⟩
          sensor_2 := entry.sensor_2.getD ⟨none, []⟩ }

/-- `ConfigLoader.get_device_genicam`. -/
def get_device_genicam (rc : RootConfig) (device_name_base : String) :
    Except PyErr DeviceGenicamDict :=
  match get_camera_entry rc device_name_base with
  | .error e => .error e
  | .ok entry =>
    let s1 := (entry.sensor_1.getD ⟨none, []⟩).genicam_nodes
    let s2 := (entry.sensor_2.getD ⟨none, []⟩).genicam_nodes
    if pyLower (entry.topology.getD "single_sensor") = "dual_sensor" then
      .ok ⟨s1, some s2⟩
    else .ok ⟨s1, none⟩

/-- The camera classes of the factory registry `_CLASS_REGISTRY`. -/
inductive CameraClass where
  | atSensors3D
deriving Repr, DecidableEq

/-- `harvestersSDK_api._CLASS_REGISTRY`. -/
def classRegistry : List ((String × String × String) × CameraClass) :=
  [(("at-automation technology gmbh", "linescan3d", "dual_sensor"), .atSensors3D)]

/-- `harvestersSDK_api._norm`: `(s or "").strip().lower()`. -/
def norm (s : Option String) : String :=
  pyLower (pyStrip (s.getD ""))

/-- `harvestersSDK_api._pick_class`. -/
def pick_class (vendor scan_type topology : Option String) : Except PyErr CameraClass :=
  match classRegistry.lookup (norm vendor, norm scan_type, norm topology) with
  | some cls => .ok cls
  | none =>
      .error (.cameraError "Unsupported camera: the vendor|scanType|topology combination is not in the registry.")

/-- The parameter names of `CameraBase.__init__` besides `self`: a single
positional `config` (camera_base.py line 29). -/
def cameraBase_init_params : List String := ["config"]

/-- The keyword-argument names `CameraATSensors3D.__init__` passes to
`super().__init__` (at_sensors_3d.py lines 53-57). -/
def atSensors_super_kwargs : List String :=
  ["api_config_dict", "device_data_dict", "device_genicam_dict"]

/-- Python keyword binding: every keyword argument must name a declared
parameter (no `**kwargs` is declared), else the call raises `TypeError`. -/
def kwnamesBind (kwnames params : List String) : Bool :=
  kwnames.all (fun k => params.contains k)

/-- `CameraATSensors3D.__init__(api_config_dict, device_data_dict,
device_genicam_dict)`: its first statement forwards all three dicts to
`super().__init__` by keyword. `CameraBase.__init__` declares only `config`,
so the keyword binding fails and the constructor raises `TypeError` before
any vendor field is set. -/
def atSensors3D_init (_api : ApiConfigDict) (_dd : DeviceDataDict)
    (_gg : DeviceGenicamDict) : Except PyErr Unit :=
  if h : kwnamesBind atSensors_super_kwargs cameraBase_init_params = true then
    False.elim (by simp [kwnamesBind, atSensors_super_kwargs, cameraBase_init_params] at h)
  else
    .error (.typeError
      "__init__() got an unexpected keyword argument 'api_config_dict'")

/-- `harvestersSDK_api.create_camera(device_name_base, config_path)` on a
configuration file that parses to `rc`: load the three config dicts (their
`CameraError`s propagate unwrapped), pick the class from the registry, and
construct it; any exception inside the construction block is wrapped in
`CameraError`. Success would yield the camera instance. -/
def create_camera (platform_is_windows : Bool) (rc : RootConfig)
    (device_name_base : String) : Except PyErr Unit :=
  if device_name_base = "" then
    .error (.cameraError "create_camera requires device_name_base.")
  else
    match get_api_config platform_is_windows rc with
    | .error e => .error e
    | .ok api =>
      match get_device_data rc device_name_base with
      | .error e => .error e
      | .ok dd =>
        match get_device_genicam rc device_name_base with
        | .error e => .error e
        | .ok gg =>
          let wrap : PyErr → PyErr := fun e =>
            .cameraError ("Failed to initialize camera '" ++ device_name_base ++ "': "
              ++ e.message)
          match pick_class dd.vendor dd.scanType (some dd.topology) with
          | .error e => .error (wrap e)
          | .ok .atSensors3D =>
            match atSensors3D_init api dd gg with
            | .error e => .error (wrap e)
            | .ok _ => .ok ()

/-! ## Point-cloud construction (`src/utils/point_cloud_processing.py`)

`build_point_cloud_from_frame` maps a 2D range image to metric 3D points.
numpy float arithmetic is modelled exactly over `ℚ`; numpy 2D arrays are
lists of rows; boolean-mask selection flattens row-major. -/

/-- The camera-calibration constants (the function's default values are
`scale_z = 0.0625`, `pixel_to_mm_x = 0.0875`, `pixel_to_mm_z = 0.1955`,
`stretch_y = 0.8`). -/
structure Calibration where
  scale_z : ℚ
  pixel_to_mm_x : ℚ
  pixel_to_mm_z : ℚ
  stretch_y : ℚ
deriving Repr, DecidableEq

/-- The default calibration dict used when none (or a falsy one) is given. -/
def defaultCalibration : Calibration :=
  { scale_z := 1/16, pixel_to_mm_x := 7/80, pixel_to_mm_z := 391/2000, stretch_y := 4/5 }

/-- `data.reshape(h, w)`: row `y`, column `x` holds `data[y*w + x]`. -/
def reshapeRows (h w : Nat) (data : List ℚ) : List (List ℚ) :=
  (List.range h).map (fun y => (List.range w).map (fun x => data.getD (y * w + x) 0))

/-- The first output of `np.meshgrid(np.arange(w), np.arange(h))`:
`xs[y][x] = x`. -/
def meshgridXs (w h : Nat) : List (List ℚ) :=
  (List.range h).map (fun _ => (List.range w).map (fun x : Nat => (x : ℚ)))

/-- The second output of `np.meshgrid`: `ys[y][x] = y`. -/
def meshgridYs (w h : Nat) : List (List ℚ) :=
  (List.range h).map (fun y : Nat => (List.range w).map (fun _ => (y : ℚ)))

/-- Elementwise application over a 2D array. -/
def map2D (f : ℚ → ℚ) (a : List (List ℚ)) : List (List ℚ) :=
  a.map (fun row => row.map f)

/-- numpy boolean-mask selection `a[mask]`: flatten both row-major and keep
the entries at `True` positions. -/
def maskSelect (a : List (List ℚ)) (mask : List (List Bool)) : List ℚ :=
  (a.flatten.zip mask.flatten).filterMap (fun p => if p.2 then some p.1 else none)

/-- `build_point_cloud_from_frame(frame, flip_yx, camera_calibration)`.
An empty frame list raises `IndexError` at `frame[0]`; a data array whose
size differs from `h*w` raises `ValueError` at `reshape`. -/
def build_point_cloud_from_frame (frame : PyFrame) (flip_yx : Bool)
    (camera_calibration : Option Calibration) : Except PyErr (List (ℚ × ℚ × ℚ)) :=
  match frame with
  | [] => .error (.indexError "list index out of range")
  | comp :: _ =>
    let c := camera_calibration.getD defaultCalibration
    let w := comp.width
    let h := comp.height
    if comp.data.length ≠ h * w then
      .error (.valueError "cannot reshape array")
    else
      let range_image := reshapeRows h w comp.data
      let xs := meshgridXs w h
      let ys := meshgridYs w h
      let cx : ℚ := ((w : ℚ) - 1) / 2
      let cy : ℚ := ((h : ℚ) - 1) / 2
      let x_mm := map2D (fun q => (q - cx) * c.pixel_to_mm_x) xs
      let y_mm := map2D (fun q => (q - cy) * c.stretch_y) ys
      let z_raw := map2D (fun q => q * c.scale_z) range_image
      let z_mm := map2D (fun q => q * c.pixel_to_mm_z) z_raw
      let mask_valid := z_mm.map (fun row => row.map (fun q => decide (0 < q)))
      let xv := maskSelect x_mm mask_valid
      let yv := maskSelect y_mm mask_valid
      let zv := (maskSelect z_mm mask_valid).map (fun q => -q)
      let xv' := if flip_yx then xv.map (fun q => -q) else xv
      .ok (xv'.zip (yv.zip zv))

/-- The point cloud as the specification describes it: one point per pixel
`(x, y)` (row-major) whose metric depth `raw * scale_z * pixel_to_mm_z` is
strictly positive, with coordinates
`((x-(w-1)/2)*pixel_to_mm_x` (negated under `flip_yx`),
`(y-(h-1)/2)*stretch_y`, `-(raw*scale_z*pixel_to_mm_z))`. -/
def pointCloudSpec (w h : Nat) (data : List ℚ) (flip_yx : Bool) (c : Calibration) :
    List (ℚ × ℚ × ℚ) :=
  (List.range h).flatMap (fun y => (List.range w).filterMap (fun x =>
    let raw := data.getD (y * w + x) 0
    if 0 < raw * c.scale_z * c.pixel_to_mm_z then
      some
        ((if flip_yx then -(((x : ℚ) - ((w : ℚ) - 1) / 2) * c.pixel_to_mm_x)
          else ((x : ℚ) - ((w : ℚ) - 1) / 2) * c.pixel_to_mm_x),
         ((y : ℚ) - ((h : ℚ) - 1) / 2) * c.stretch_y,
         -(raw * c.scale_z * c.pixel_to_mm_z))
    else none))

/-! ## Infrastructure lemmas about the dict and list models -/

theorem lookup_cons_of_beq_true {k : Nat} {q : Nat × Bool} {t : List (Nat × Bool)}
    (h : (k == q.1) = true) : (q :: t).lookup k = some q.2 := by
  simp [List.lookup, h]

theorem lookup_cons_of_beq_false {k : Nat} {q : Nat × Bool} {t : List (Nat × Bool)}
    (h : (k == q.1) = false) : (q :: t).lookup k = t.lookup k := by
  simp [List.lookup, h]

theorem lookup_of_mem_of_nodupKeys :
    ∀ {l : List (Nat × Bool)}, (l.map Prod.fst).Nodup →
      ∀ {p : Nat × Bool}, p ∈ l → l.lookup p.1 = some p.2
  | [], _, _, hp => by cases hp
  | q :: t, hn, p, hp => by
    rw [List.map_cons, List.nodup_cons] at hn
    rcases List.mem_cons.mp hp with h | h
    · subst h
      exact lookup_cons_of_beq_true (by simp)
    · have hne : (p.1 == q.1) = false := by
        refine beq_eq_false_iff_ne.mpr ?_
        intro he
        exact hn.1 (he ▸ List.mem_map_of_mem Prod.fst h)
      rw [lookup_cons_of_beq_false hne]
      exact lookup_of_mem_of_nodupKeys hn.2 h

theorem mem_of_lookup_eq_some :
    ∀ {l : List (Nat × Bool)} {k : Nat} {b : Bool}, l.lookup k = some b → (k, b) ∈ l
  | [], _, _, h => by simp [List.lookup] at h
  | q :: t, k, b, h => by
    cases hkq : (k == q.1) with
    | true =>
      rw [lookup_cons_of_beq_true hkq] at h
      have hb : q.2 = b := by injection h
      have hk : k = q.1 := by simpa using hkq
      subst hb
      subst hk
      simp
    | false =>
      rw [lookup_cons_of_beq_false hkq] at h
      exact List.mem_cons_of_mem _ (mem_of_lookup_eq_some h)

theorem lookup_map_setter (k : Nat) (b : Bool) :
    ∀ (l : List (Nat × Bool)), (∃ p ∈ l, (p.1 == k) = true) →
      (l.map (fun p => if p.1 == k then (k, b) else p)).lookup k = some b
  | [], h => by simp at h
  | q :: t, h => by
    rw [List.map_cons]
    by_cases hqk : (q.1 == k) = true
    · rw [if_pos hqk]
      exact lookup_cons_of_beq_true (by simp)
    · rw [if_neg hqk]
      have hkq : (k == q.1) = false := by
        refine beq_eq_false_iff_ne.mpr ?_
        intro he
        exact hqk (beq_iff_eq.mpr he.symm)
      rw [lookup_cons_of_beq_false hkq]
      obtain ⟨p, hp, hpk⟩ := h
      rcases List.mem_cons.mp hp with hq | ht
      · exact absurd (hq ▸ hpk) hqk
      · exact lookup_map_setter k b t ⟨p, ht, hpk⟩

theorem lookup_append_single (k : Nat) (b : Bool) :
    ∀ (l : List (Nat × Bool)), (∀ p ∈ l, (p.1 == k) = false) →
      (l ++ [(k, b)]).lookup k = some b
  | [], _ => by
    simp only [List.nil_append]
    exact lookup_cons_of_beq_true (by simp)
  | q :: t, h => by
    rw [List.cons_append]
    have hkq : (k == q.1) = false := by
      refine beq_eq_false_iff_ne.mpr ?_
      intro he
      have := h q (List.mem_cons_self _ _)
      rw [beq_eq_false_iff_ne] at this
      exact this he.symm
    rw [lookup_cons_of_beq_false hkq]
    exact lookup_append_single k b t (fun p hp => h p (List.mem_cons_of_mem _ hp))

theorem lookup_dictSet (l : List (Nat × Bool)) (k : Nat) (b : Bool) :
    (dictSet l k b).lookup k = some b := by
  unfold dictSet
  by_cases h : l.any (fun p => p.1 == k) = true
  · rw [if_pos h]
    exact lookup_map_setter k b l (List.any_eq_true.mp h)
  · rw [if_neg h]
    refine lookup_append_single k b l ?_
    intro p hp
    by_contra hc
    exact h (List.any_eq_true.mpr ⟨p, hp, by simpa using hc⟩)

theorem lookup_map_setter_ne (k k' : Nat) (b : Bool) (hne : k' ≠ k) :
    ∀ (l : List (Nat × Bool)),
      (l.map (fun p => if p.1 == k then (k, b) else p)).lookup k' = l.lookup k'
  | [] => rfl
  | q :: t => by
    rw [List.map_cons]
    by_cases hqk : (q.1 == k) = true
    · rw [if_pos hqk]
      have h1 : (k' == k) = false := beq_eq_false_iff_ne.mpr hne
      have h2 : (k' == q.1) = false := by
        refine beq_eq_false_iff_ne.mpr ?_
        intro he
        exact hne (he.trans (beq_iff_eq.mp hqk))
      rw [lookup_cons_of_beq_false (q := (k, b)) h1, lookup_cons_of_beq_false h2]
      exact lookup_map_setter_ne k k' b hne t
    · rw [if_neg hqk]
      cases hkq : (k' == q.1) with
      | true =>
        rw [lookup_cons_of_beq_true hkq, lookup_cons_of_beq_true hkq]
      | false =>
        rw [lookup_cons_of_beq_false hkq, lookup_cons_of_beq_false hkq]
        exact lookup_map_setter_ne k k' b hne t

theorem lookup_append_single_ne (k k' : Nat) (b : Bool) (hne : k' ≠ k) :
    ∀ (l : List (Nat × Bool)), (l ++ [(k, b)]).lookup k' = l.lookup k'
  | [] => by
    simp only [List.nil_append]
    rw [lookup_cons_of_beq_false (q := (k, b)) (beq_eq_false_iff_ne.mpr hne)]
  | q :: t => by
    rw [List.cons_append]
    cases hkq : (k' == q.1) with
    | true => rw [lookup_cons_of_beq_true hkq, lookup_cons_of_beq_true hkq]
    | false =>
      rw [lookup_cons_of_beq_false hkq, lookup_cons_of_beq_false hkq]
      exact lookup_append_single_ne k k' b hne t

theorem lookup_dictSet_ne (l : List (Nat × Bool)) (k k' : Nat) (b : Bool)
    (h : k' ≠ k) : (dictSet l k b).lookup k' = l.lookup k' := by
  unfold dictSet
  by_cases hany : l.any (fun p => p.1 == k) = true
  · rw [if_pos hany]
    exact lookup_map_setter_ne k k' b h l
  · rw [if_neg hany]
    exact lookup_append_single_ne k k' b h l

theorem dictSet_dictSet (l : List (Nat × Bool)) (k : Nat) (a b : Bool) :
    dictSet (dictSet l k a) k b = dictSet l k b := by
  by_cases h : l.any (fun p => p.1 == k) = true
  · have h1 : dictSet l k a = l.map (fun p => if p.1 == k then (k, a) else p) := by
      unfold dictSet
      rw [if_pos h]
    have h2 : dictSet l k b = l.map (fun p => if p.1 == k then (k, b) else p) := by
      unfold dictSet
      rw [if_pos h]
    have hmapped : ((l.map (fun p => if p.1 == k then (k, a) else p)).any
        (fun p => p.1 == k)) = true := by
      obtain ⟨p, hp, hpk⟩ := List.any_eq_true.mp h
      refine List.any_eq_true.mpr
        ⟨if p.1 == k then (k, a) else p, List.mem_map_of_mem _ hp, ?_⟩
      rw [if_pos hpk]
      simp
    have h3 : dictSet (l.map (fun p => if p.1 == k then (k, a) else p)) k b =
        (l.map (fun p => if p.1 == k then (k, a) else p)).map
          (fun p => if p.1 == k then (k, b) else p) := by
      unfold dictSet
      rw [if_pos hmapped]
    rw [h1, h3, h2, List.map_map]
    refine List.map_congr_left ?_
    intro p _
    by_cases hpk : (p.1 == k) = true
    · simp [Function.comp, hpk]
    · simp [Function.comp, hpk]
  · have h1 : dictSet l k a = l ++ [(k, a)] := by
      unfold dictSet
      rw [if_neg h]
    have h2 : dictSet l k b = l ++ [(k, b)] := by
      unfold dictSet
      rw [if_neg h]
    have happ : ((l ++ [(k, a)]).any (fun p => p.1 == k)) = true :=
      List.any_eq_true.mpr ⟨(k, a), List.mem_append_right _ (by simp), by simp⟩
    have h3 : dictSet (l ++ [(k, a)]) k b =
        (l ++ [(k, a)]).map (fun p => if p.1 == k then (k, b) else p) := by
      unfold dictSet
      rw [if_pos happ]
    rw [h1, h3, h2, List.map_append]
    have hl : l.map (fun p => if p.1 == k then (k, b) else p) = l := by
      have hcong : ∀ p ∈ l, (if p.1 == k then ((k, b) : Nat × Bool) else p) = p := by
        intro p hp
        have hpk : (p.1 == k) = false := by
          by_contra hc
          exact h (List.any_eq_true.mpr ⟨p, hp, by simpa using hc⟩)
        simp [hpk]
      calc l.map (fun p => if p.1 == k then (k, b) else p)
          = l.map id := List.map_congr_left hcong
        _ = l := List.map_id l
    rw [hl]
    simp

/-- `getAcq` after `setAcq` at the same key. -/
theorem getAcq_setAcq (s : CameraState) (ia : Nat) (b : Bool) :
    (s.setAcq ia b).getAcq ia = b := by
  unfold CameraState.setAcq CameraState.getAcq dictGetD
  rw [lookup_dictSet]
  rfl

/-- `getAcq` after `setAcq` at a different key. -/
theorem getAcq_setAcq_ne (s : CameraState) (ia ia' : Nat) (b : Bool) (h : ia' ≠ ia) :
    (s.setAcq ia b).getAcq ia' = s.getAcq ia' := by
  unfold CameraState.setAcq CameraState.getAcq dictGetD
  rw [lookup_dictSet_ne _ _ _ _ h]

/-- `setAcq` twice at the same key keeps only the second write. -/
theorem setAcq_setAcq (s : CameraState) (ia : Nat) (a b : Bool) :
    (s.setAcq ia a).setAcq ia b = s.setAcq ia b := by
  unfold CameraState.setAcq
  simp [dictSet_dictSet]

/-- `setAcq` leaves every field but the acquiring dict unchanged. -/
theorem setAcq_acquirers (s : CameraState) (ia : Nat) (b : Bool) :
    (s.setAcq ia b).acquirers = s.acquirers := rfl

/-- A `getAcq` that is `false` stays `false` after any `setAcq _ false`. -/
theorem getAcq_false_after_setAcq_false (s : CameraState) (ia ia' : Nat)
    (h : s.getAcq ia' = false) : (s.setAcq ia false).getAcq ia' = false := by
  by_cases hia : ia' = ia
  · subst hia
    exact getAcq_setAcq s ia' false
  · rw [getAcq_setAcq_ne s ia ia' false hia]
    exact h

theorem pyGet_ne_nil {α : Type} {l : List α} {i : Int} {a : α}
    (h : pyGet l i = some a) : l ≠ [] := by
  intro he
  subst he
  simp [pyGet] at h

theorem pyGet_isEmpty_false {α : Type} {l : List α} {i : Int} {a : α}
    (h : pyGet l i = some a) : l.isEmpty = false := by
  cases l with
  | nil => simp [pyGet] at h
  | cons x t => rfl

theorem pyGet_lt_length {α : Type} {l : List α} {i : Int} {a : α}
    (h : pyGet l i = some a) : i < (l.length : Int) := by
  unfold pyGet at h
  split at h
  · rename_i h0
    by_contra hc
    push_neg at hc
    have hlen : l.length ≤ i.toNat := by omega
    rw [List.get?_eq_none.mpr hlen] at h
    cases h
  · split at h
    · rename_i h0 _
      push_neg at h0
      omega
    · cases h

theorem pyGet_neg_one_eq_getLast? {α : Type} (l : List α) (h : l ≠ []) :
    pyGet l (-1) = l.getLast? := by
  have hlen : 0 < l.length := List.length_pos.mpr h
  unfold pyGet
  rw [if_neg (by decide : ¬ (0 : Int) ≤ -1), if_pos (by omega : (0 : Int) ≤ -1 + l.length)]
  rw [List.getLast?_eq_getElem?, ← List.get?_eq_getElem?]
  have : (-1 + (l.length : Int)).toNat = l.length - 1 := by omega
  rw [this]

theorem pyGet_neg_one_eq_pyGet_pred {α : Type} (l : List α) (h : l ≠ []) :
    pyGet l (-1) = pyGet l ((l.length : Int) - 1) := by
  have hlen : 0 < l.length := List.length_pos.mpr h
  unfold pyGet
  rw [if_neg (by decide : ¬ (0 : Int) ≤ -1), if_pos (by omega : (0 : Int) ≤ -1 + l.length),
    if_pos (by omega : (0 : Int) ≤ (l.length : Int) - 1)]
  have : (-1 + (l.length : Int)).toNat = ((l.length : Int) - 1).toNat := by omega
  rw [this]

/-- Two strings differing in their first character stay different after the
first is extended on the right. -/
theorem string_append_ne_of_head (p m q : String)
    (h : p.data.head? ≠ q.data.head?) (hp : p.data ≠ []) : p ++ m ≠ q := by
  intro he
  apply h
  rw [← he, String.data_append]
  cases hd : p.data with
  | nil => exact absurd hd hp
  | cons c cs => simp [hd]

/-! ## The connected / acquiring predicates -/

/-- Well-formedness of `_acquiring_states` as maintained by the class: dict
keys are unique (a Python dict) and every key is the id of a registered
acquirer (`connect` registers both together; `disconnect` clears both). -/
def AcqDictWF (s : CameraState) : Prop :=
  (s.acquiring_states.map Prod.fst).Nodup ∧
    ∀ p ∈ s.acquiring_states, p.1 ∈ s.acquirers

/-- C5: the `connected` property is true exactly when at least one acquirer
is registered, and the `acquiring` property is true exactly when some
registered acquirer's tracked per-handle acquiring state is `True`. -/
theorem connected_acquiring_predicates (s : CameraState) (h : AcqDictWF s) :
    (cb_connected s = true ↔ s.acquirers ≠ []) ∧
    (cb_acquiring s = true ↔ ∃ ia ∈ s.acquirers, s.getAcq ia = true) := by
  constructor
  · unfold cb_connected
    rw [decide_eq_true_iff]
    exact ⟨fun hp => List.length_pos.mp hp, fun hn => List.length_pos.mpr hn⟩
  · constructor
    · intro ha
      obtain ⟨p, hp, hb⟩ := List.any_eq_true.mp ha
      refine ⟨p.1, h.2 p hp, ?_⟩
      unfold CameraState.getAcq dictGetD
      rw [lookup_of_mem_of_nodupKeys h.1 hp]
      simpa using hb
    · rintro ⟨ia, hmem, hacq⟩
      unfold CameraState.getAcq dictGetD at hacq
      cases hl : s.acquiring_states.lookup ia with
      | none =>
        rw [hl] at hacq
        cases hacq
      | some b =>
        rw [hl] at hacq
        have hb : b = true := by simpa using hacq
        subst hb
        exact List.any_eq_true.mpr ⟨(ia, true), mem_of_lookup_eq_some hl, rfl⟩

/-- A concrete one-acquirer camera state with its acquirer acquiring. -/
def oneAcquirerAcquiring : CameraState :=
  { acquirers := [7], acquiring_states := [(7, true)], initialized := true,
    timeout_ms := 5000, strict := true, device_config := ⟨none, none, none⟩ }

/-- Witness for C5 at a concrete state. -/
theorem connected_acquiring_predicates_witness :
    cb_connected oneAcquirerAcquiring = true ∧ cb_acquiring oneAcquirerAcquiring = true := by
  have h := connected_acquiring_predicates oneAcquirerAcquiring ⟨by decide, by decide⟩
  exact ⟨h.1.mpr (by decide), h.2.mpr ⟨7, by decide, by decide⟩⟩

/-! ## Negative acquirer indices -/

theorem data_append_ne_nil (p m : String) (hp : p.data ≠ []) : (p ++ m).data ≠ [] := by
  rw [String.data_append]
  exact fun hc => hp (List.append_eq_nil.mp hc).1

theorem head_data_append (p m : String) (hp : p.data ≠ []) :
    (p ++ m).data.head? = p.data.head? := by
  rw [String.data_append]
  cases hd : p.data with
  | nil => exact absurd hd hp
  | cons c cs => simp [hd]


/-- Reduced form of `cb_start_acquisition` once the index resolves to an
acquirer: the emptiness and range guards pass automatically. -/
theorem cb_start_reduce (t : CamTransport) (s : CameraState) (i : Int) (ia : Nat)
    (hia : pyGet s.acquirers i = some ia) :
    cb_start_acquisition t s i =
      (if s.getAcq ia then .ok s
       else match t.start_image_acquirer ia with
         | .ok _ => .ok (s.setAcq ia true)
         | .error e =>
             .error (.acquisitionError
               ("Failed to start acquisition on acquirer " ++ toString i ++ ": "
                 ++ e.message))) := by
  have hE := pyGet_isEmpty_false hia
  have hg : ¬ ((s.acquirers.length : Int) ≤ i) := by
    have := pyGet_lt_length hia
    omega
  unfold cb_start_acquisition
  rw [hE, if_neg Bool.false_ne_true, if_neg hg, hia]

/-- Reduced form of `cb_stop_acquisition`. -/
theorem cb_stop_reduce (t : CamTransport) (s : CameraState) (i : Int) (ia : Nat)
    (hia : pyGet s.acquirers i = some ia) :
    cb_stop_acquisition t s i =
      (if ¬ s.getAcq ia then .ok s
       else match t.stop_image_acquirer ia with
         | .ok _ => .ok (s.setAcq ia false)
         | .error e =>
             .error (.acquisitionError
               ("Failed to stop acquisition on acquirer " ++ toString i ++ ": "
                 ++ e.message))) := by
  have hE := pyGet_isEmpty_false hia
  have hg : ¬ ((s.acquirers.length : Int) ≤ i) := by
    have := pyGet_lt_length hia
    omega
  unfold cb_stop_acquisition
  rw [hE, if_neg Bool.false_ne_true, if_neg hg, hia]

/-- Reduced form of `cb_get_frame`. -/
theorem cb_get_frame_reduce (t : CamTransport) (s : CameraState) (i : Int)
    (to_ms : Option Nat) (ia : Nat) (hia : pyGet s.acquirers i = some ia) :
    cb_get_frame t s i to_ms =
      (if ¬ s.getAcq ia then
         .error (.cameraError ("Acquirer " ++ toString i ++ " not acquiring."))
       else match t.fetch_from_acquirer ia (pyOrTimeout to_ms s.timeout_ms) with
         | .ok f => .ok (some f)
         | .error e =>
             if s.strict then
               .error (.acquisitionError
                 ("Failed to fetch frame from acquirer " ++ toString i ++ ": "
                   ++ e.message))
             else .ok none) := by
  have hE := pyGet_isEmpty_false hia
  have hg : ¬ ((s.acquirers.length : Int) ≤ i) := by
    have := pyGet_lt_length hia
    omega
  unfold cb_get_frame
  rw [hE, if_neg Bool.false_ne_true, if_neg hg, hia]

/-- Reduced form of `cb_set_parameter`. -/
theorem cb_set_parameter_reduce (t : CamTransport) (s : CameraState)
    (name : String) (v : PyVal) (i : Int) (ia : Nat)
    (hia : pyGet s.acquirers i = some ia) :
    cb_set_parameter t s name v i =
      (match t.set_node_value ia name v with
       | .ok _ => .ok ()
       | .error e =>
           if s.strict then
             .error (.parameterError
               ("Failed to set parameter " ++ name ++ ": " ++ e.message))
           else .ok ()) := by
  have hE := pyGet_isEmpty_false hia
  have hg : ¬ ((s.acquirers.length : Int) ≤ i) := by
    have := pyGet_lt_length hia
    omega
  unfold cb_set_parameter
  rw [hE, if_neg Bool.false_ne_true, if_neg hg, hia]

/-- Reduced form of `cb_get_parameter`. -/
theorem cb_get_parameter_reduce (t : CamTransport) (s : CameraState)
    (name : String) (i : Int) (ia : Nat)
    (hia : pyGet s.acquirers i = some ia) :
    cb_get_parameter t s name i =
      (match t.get_node_value ia name with
       | .ok v => .ok (some v)
       | .error e =>
           if s.strict then
             .error (.parameterError
               ("Failed to get parameter " ++ name ++ ": " ++ e.message))
           else .ok none) := by
  have hE := pyGet_isEmpty_false hia
  have hg : ¬ ((s.acquirers.length : Int) ≤ i) := by
    have := pyGet_lt_length hia
    omega
  unfold cb_get_parameter
  rw [hE, if_neg Bool.false_ne_true, if_neg hg, hia]

/-- C10: the index validation only rejects `acquirer_index >= len(acquirers)`:
on a camera with at least one registered acquirer, index `-1` passes the
check in all five indexed operations of `CameraBase`, none of them raises
the out-of-range error, and each behaves (up to the index interpolated into
error messages) exactly like the operation on the last index `len-1` — the
operation is applied to the acquirer addressed from the end of the
registry. -/
theorem negative_index_addresses_from_end (t : CamTransport) (s : CameraState)
    (h : s.acquirers ≠ []) (name : String) (v : PyVal) (to_ms : Option Nat) :
    pyGet s.acquirers (-1) = s.acquirers.getLast? ∧
    stripMsg (cb_start_acquisition t s (-1)) =
      stripMsg (cb_start_acquisition t s ((s.acquirers.length : Int) - 1)) ∧
    stripMsg (cb_stop_acquisition t s (-1)) =
      stripMsg (cb_stop_acquisition t s ((s.acquirers.length : Int) - 1)) ∧
    stripMsg (cb_get_frame t s (-1) to_ms) =
      stripMsg (cb_get_frame t s ((s.acquirers.length : Int) - 1) to_ms) ∧
    stripMsg (cb_set_parameter t s name v (-1)) =
      stripMsg (cb_set_parameter t s name v ((s.acquirers.length : Int) - 1)) ∧
    stripMsg (cb_get_parameter t s name (-1)) =
      stripMsg (cb_get_parameter t s name ((s.acquirers.length : Int) - 1)) ∧
    cb_start_acquisition t s (-1) ≠
      .error (.acquisitionError "Acquirer index -1 out of range.") ∧
    cb_stop_acquisition t s (-1) ≠
      .error (.acquisitionError "Acquirer index -1 out of range.") ∧
    cb_get_frame t s (-1) to_ms ≠
      .error (.acquisitionError "Acquirer index -1 out of range.") ∧
    cb_set_parameter t s name v (-1) ≠
      .error (.parameterError "Acquirer index -1 out of range.") ∧
    cb_get_parameter t s name (-1) ≠
      .error (.parameterError "Acquirer index -1 out of range.") := by
  have hpy : pyGet s.acquirers (-1) = pyGet s.acquirers ((s.acquirers.length : Int) - 1) :=
    pyGet_neg_one_eq_pyGet_pred _ h
  have hlast : pyGet s.acquirers (-1) = s.acquirers.getLast? :=
    pyGet_neg_one_eq_getLast? _ h
  have hsome : ∃ ia, pyGet s.acquirers (-1) = some ia := by
    rw [hlast]
    cases hg : s.acquirers.getLast? with
    | none => exact absurd (List.getLast?_eq_none_iff.mp hg) h
    | some ia => exact ⟨ia, rfl⟩
  obtain ⟨ia, hia⟩ := hsome
  have hia' : pyGet s.acquirers ((s.acquirers.length : Int) - 1) = some ia := hpy ▸ hia
  refine ⟨hlast, ?_, ?_, ?_, ?_, ?_, ?_, ?_, ?_, ?_, ?_⟩
  · rw [cb_start_reduce t s (-1) ia hia, cb_start_reduce t s _ ia hia']
    by_cases hacq : s.getAcq ia = true
    · rw [if_pos hacq, if_pos hacq]
    · rw [if_neg hacq, if_neg hacq]
      cases ht : t.start_image_acquirer ia with
      | ok u => rfl
      | error e => rfl
  · rw [cb_stop_reduce t s (-1) ia hia, cb_stop_reduce t s _ ia hia']
    by_cases hacq : s.getAcq ia = true
    · rw [if_neg (not_not_intro hacq), if_neg (not_not_intro hacq)]
      cases ht : t.stop_image_acquirer ia with
      | ok u => rfl
      | error e => rfl
    · rw [if_pos hacq, if_pos hacq]
  · rw [cb_get_frame_reduce t s (-1) to_ms ia hia, cb_get_frame_reduce t s _ to_ms ia hia']
    by_cases hacq : s.getAcq ia = true
    · rw [if_neg (not_not_intro hacq), if_neg (not_not_intro hacq)]
      cases ht : t.fetch_from_acquirer ia (pyOrTimeout to_ms s.timeout_ms) with
      | ok f => rfl
      | error e =>
        by_cases hst : s.strict = true
        · simp [hst, stripMsg, PyErr.kind]
        · simp [hst, stripMsg]
    · rw [if_pos hacq, if_pos hacq]
      rfl
  · rw [cb_set_parameter_reduce t s name v (-1) ia hia,
      cb_set_parameter_reduce t s name v _ ia hia']
  · rw [cb_get_parameter_reduce t s name (-1) ia hia,
      cb_get_parameter_reduce t s name _ ia hia']
  · rw [cb_start_reduce t s (-1) ia hia]
    by_cases hacq : s.getAcq ia = true
    · rw [if_pos hacq]
      simp
    · rw [if_neg hacq]
      cases ht : t.start_image_acquirer ia with
      | ok u => simp
      | error e =>
        intro hc
        injection hc with h1
        injection h1 with h2
        exact absurd h2 (string_append_ne_of_head _ _ _ (by decide) (by decide))
  · rw [cb_stop_reduce t s (-1) ia hia]
    by_cases hacq : s.getAcq ia = true
    · rw [if_neg (not_not_intro hacq)]
      cases ht : t.stop_image_acquirer ia with
      | ok u => simp
      | error e =>
        intro hc
        injection hc with h1
        injection h1 with h2
        exact absurd h2 (string_append_ne_of_head _ _ _ (by decide) (by decide))
    · rw [if_pos hacq]
      simp
  · rw [cb_get_frame_reduce t s (-1) to_ms ia hia]
    by_cases hacq : s.getAcq ia = true
    · rw [if_neg (not_not_intro hacq)]
      cases ht : t.fetch_from_acquirer ia (pyOrTimeout to_ms s.timeout_ms) with
      | ok f => simp
      | error e =>
        by_cases hst : s.strict = true
        · rw [hst]
          intro hc
          injection hc with h1
          injection h1 with h2
          exact absurd h2 (string_append_ne_of_head _ _ _ (by decide) (by decide))
        · simp [hst]
    · rw [if_pos hacq]
      intro hc
      injection hc with h1
      cases h1
  · rw [cb_set_parameter_reduce t s name v (-1) ia hia]
    cases ht : t.set_node_value ia name v with
    | ok u => simp
    | error e =>
      by_cases hst : s.strict = true
      · rw [hst]
        intro hc
        injection hc with h1
        injection h1 with h2
        refine absurd h2 (string_append_ne_of_head _ _ _ ?_ ?_)
        · rw [head_data_append _ _ (data_append_ne_nil _ _ (by decide)),
            head_data_append _ _ (by decide)]
          decide
        · exact data_append_ne_nil _ _ (data_append_ne_nil _ _ (by decide))
      · simp [hst]
  · rw [cb_get_parameter_reduce t s name (-1) ia hia]
    cases ht : t.get_node_value ia name with
    | ok u => simp
    | error e =>
      by_cases hst : s.strict = true
      · rw [hst]
        intro hc
        injection hc with h1
        injection h1 with h2
        refine absurd h2 (string_append_ne_of_head _ _ _ ?_ ?_)
        · rw [head_data_append _ _ (data_append_ne_nil _ _ (by decide)),
            head_data_append _ _ (by decide)]
          decide
        · exact data_append_ne_nil _ _ (data_append_ne_nil _ _ (by decide))
      · simp [hst]

/-- A camera-layer transport whose calls all succeed (with canned values). -/
def okTransport : CamTransport where
  init := .ok ()
  create_image_acquirer := fun _ => .ok 1
  start_image_acquirer := fun _ => .ok ()
  stop_image_acquirer := fun _ => .ok ()
  fetch_from_acquirer := fun _ _ => .ok []
  destroy_image_acquirer := fun _ => .ok ()
  reset := .ok ()
  set_node_value := fun _ _ _ => .ok ()
  get_node_value := fun _ _ => .ok (.int 0)

/-- A concrete camera state with two registered idle acquirers. -/
def twoAcquirersIdle : CameraState :=
  { acquirers := [4, 9], acquiring_states := [(4, false), (9, false)],
    initialized := true, timeout_ms := 5000, strict := true,
    device_config := ⟨none, none, none⟩ }

/-- A concrete camera state with one registered idle acquirer. -/
def oneAcquirerIdle : CameraState :=
  { acquirers := [4], acquiring_states := [(4, false)],
    initialized := true, timeout_ms := 5000, strict := true,
    device_config := ⟨none, none, none⟩ }

/-- Witness for C10 at a concrete camera. -/
theorem negative_index_addresses_from_end_witness :
    pyGet twoAcquirersIdle.acquirers (-1) = twoAcquirersIdle.acquirers.getLast? ∧
    cb_start_acquisition okTransport twoAcquirersIdle (-1) ≠
      .error (.acquisitionError "Acquirer index -1 out of range.") := by
  have h := negative_index_addresses_from_end okTransport twoAcquirersIdle
    (by decide) "Gain" (.int 1) none
  exact ⟨h.1, h.2.2.2.2.2.2.1⟩

/-! ## Topology dispatch in the vendor overrides -/

/-- C4: with topology `"dual_sensor"`, `start_acquisition` and
`stop_acquisition` of `CameraATSensors3D` ignore their index argument and
fan out across both acquirer indices — base start/stop on index 0 first,
then index 1, composing effects in that order — raising `CameraError` when
fewer than two acquirers are registered; with topology `"single_sensor"`
they delegate to the base operation on the given index only. -/
theorem at_topology_dispatch (t : CamTransport) (s : CameraState) (i j : Int) :
    (at_start_acquisition t "dual_sensor" s i = at_start_acquisition t "dual_sensor" s j) ∧
    (at_stop_acquisition t "dual_sensor" s i = at_stop_acquisition t "dual_sensor" s j) ∧
    (s.acquirers.length < 2 →
      (at_start_acquisition t "dual_sensor" s i).2 =
        .error (.cameraError "Image acquirers for dual-sensor not configured!") ∧
      (at_stop_acquisition t "dual_sensor" s i).2 =
        .error (.cameraError "Image acquirers for dual-sensor not configured!")) ∧
    (2 ≤ s.acquirers.length →
      (∀ e, cb_start_acquisition t s 0 = .error e →
        at_start_acquisition t "dual_sensor" s i = (s, .error e)) ∧
      (∀ s1, cb_start_acquisition t s 0 = .ok s1 →
        (∀ e, cb_start_acquisition t s1 1 = .error e →
          at_start_acquisition t "dual_sensor" s i = (s1, .error e)) ∧
        (∀ s2, cb_start_acquisition t s1 1 = .ok s2 →
          at_start_acquisition t "dual_sensor" s i = (s2, .ok ())))) ∧
    (2 ≤ s.acquirers.length →
      (∀ e, cb_stop_acquisition t s 0 = .error e →
        at_stop_acquisition t "dual_sensor" s i = (s, .error e)) ∧
      (∀ s1, cb_stop_acquisition t s 0 = .ok s1 →
        (∀ e, cb_stop_acquisition t s1 1 = .error e →
          at_stop_acquisition t "dual_sensor" s i = (s1, .error e)) ∧
        (∀ s2, cb_stop_acquisition t s1 1 = .ok s2 →
          at_stop_acquisition t "dual_sensor" s i = (s2, .ok ())))) ∧
    ((∀ s', cb_start_acquisition t s i = .ok s' →
        at_start_acquisition t "single_sensor" s i = (s', .ok ())) ∧
      (∀ e, cb_start_acquisition t s i = .error e →
        at_start_acquisition t "single_sensor" s i = (s, .error e))) ∧
    ((∀ s', cb_stop_acquisition t s i = .ok s' →
        at_stop_acquisition t "single_sensor" s i = (s', .ok ())) ∧
      (∀ e, cb_stop_acquisition t s i = .error e →
        at_stop_acquisition t "single_sensor" s i = (s, .error e))) := by
  have hne : ¬ (("dual_sensor" : String) = "single_sensor") := by decide
  refine ⟨?_, ?_, ?_, ?_, ?_, ?_, ?_⟩
  · unfold at_start_acquisition
    rw [if_neg hne, if_neg hne]
  · unfold at_stop_acquisition
    rw [if_neg hne, if_neg hne]
  · intro hlen
    constructor
    · unfold at_start_acquisition
      rw [if_neg hne, if_pos hlen]
    · unfold at_stop_acquisition
      rw [if_neg hne, if_pos hlen]
  · intro hlen
    constructor
    · intro e he
      unfold at_start_acquisition
      rw [if_neg hne, if_neg (by omega), he]
    · intro s1 h1
      constructor
      · intro e he
        unfold at_start_acquisition
        rw [if_neg hne, if_neg (by omega)]
        simp only [h1, he]
      · intro s2 h2
        unfold at_start_acquisition
        rw [if_neg hne, if_neg (by omega)]
        simp only [h1, h2]
  · intro hlen
    constructor
    · intro e he
      unfold at_stop_acquisition
      rw [if_neg hne, if_neg (by omega), he]
    · intro s1 h1
      constructor
      · intro e he
        unfold at_stop_acquisition
        rw [if_neg hne, if_neg (by omega)]
        simp only [h1, he]
      · intro s2 h2
        unfold at_stop_acquisition
        rw [if_neg hne, if_neg (by omega)]
        simp only [h1, h2]
  · constructor
    · intro s' hs
      unfold at_start_acquisition
      rw [if_pos rfl, hs]
    · intro e he
      unfold at_start_acquisition
      rw [if_pos rfl, he]
  · constructor
    · intro s' hs
      unfold at_stop_acquisition
      rw [if_pos rfl, hs]
    · intro e he
      unfold at_stop_acquisition
      rw [if_pos rfl, he]

/-- Witness for C4: the dual fan-out at a concrete two-acquirer camera (the
index argument 5 is ignored), and the `CameraError` at a one-acquirer
camera. -/
theorem at_topology_dispatch_witness :
    at_start_acquisition okTransport "dual_sensor" twoAcquirersIdle 5 =
      ({ twoAcquirersIdle with acquiring_states := [(4, true), (9, true)] }, .ok ()) ∧
    (at_start_acquisition okTransport "dual_sensor" oneAcquirerIdle 0).2 =
      .error (.cameraError "Image acquirers for dual-sensor not configured!") := by
  constructor
  · exact (((at_topology_dispatch okTransport twoAcquirersIdle 5 0).2.2.2.1
      (by decide)).2 _ rfl).2 _ rfl
  · exact ((at_topology_dispatch okTransport oneAcquirerIdle 0 0).2.2.1 (by decide)).1

/-! ## `CameraBase.connect` against the provided transport -/

/-- C8: for every `CameraBase` whose transport is the provided
`TransportHarvesters` (as installed by `CameraBase.__init__`), `connect`
raises `ConnectionError` for every device selector — the attribute
`create_image_acquirer` it invokes does not exist on the transport — and
consequently no acquirer is ever registered through `connect`:
the `_acquirers` registry is unchanged. (`initResult` ranges over every
possible outcome of the transport's `initialize()` call.) -/
theorem connect_always_raises_on_real_transport
    (initResult : Except PyErr Unit) (s : CameraState) (ds : Option Selector) :
    errKind (cb_connect (harvestersCamTransport initResult) s ds).2 =
      some .connectionError ∧
    (cb_connect (harvestersCamTransport initResult) s ds).1.acquirers = s.acquirers := by
  unfold cb_connect harvestersCamTransport
  by_cases hinit : s.initialized = true
  · rw [if_pos hinit]
    exact ⟨rfl, rfl⟩
  · rw [if_neg hinit]
    cases initResult with
    | ok u => exact ⟨rfl, rfl⟩
    | error e => exact ⟨rfl, rfl⟩

/-- Witness-style corollary of C8 at a fresh camera state (no hypotheses in
the theorem itself; this instantiates it concretely). -/
theorem connect_always_raises_on_real_transport_witness :
    errKind (cb_connect (harvestersCamTransport (.ok ())) oneAcquirerIdle none).2 =
      some .connectionError ∧
    (cb_connect (harvestersCamTransport (.ok ())) oneAcquirerIdle none).1.acquirers =
      oneAcquirerIdle.acquirers :=
  connect_always_raises_on_real_transport (.ok ()) oneAcquirerIdle none

/-! ## Error translation in the transport wrapper -/

theorem th_init_onlyCameraErrors (o : SDKOracle) (s : TransportState) :
    ∀ e, (th_init o s).2 = .error e → e.isCameraError = true := by
  intro e he
  unfold th_init at he
  repeat' split at he
  all_goals simp at he
  all_goals (subst he; rfl)

theorem th_connect_pick_onlyCameraErrors (o : SDKOracle) (c : DeviceConfig)
    (s'' : TransportState) (devices : List DeviceInfo) :
    ∀ e, (th_connect_pick o c s'' devices).2 = .error e → e.isCameraError = true := by
  intro e he
  unfold th_connect_pick connectWrap at he
  repeat' split at he
  any_goals (simp at he)
  all_goals (subst he; rfl)

theorem th_connect_find_onlyCameraErrors (o : SDKOracle) (s' : TransportState)
    (cfg : Option DeviceConfig) :
    ∀ e, (th_connect_find o s' cfg).2 = .error e → e.isCameraError = true := by
  intro e he
  unfold th_connect_find connectWrap at he
  repeat' split at he
  any_goals (simp at he)
  any_goals (subst he; rfl)
  all_goals
    rcases h2 : (th_list_devices o s').2 with e2 | devs <;> rw [h2] at he <;> simp at he
  any_goals (subst he; rfl)
  all_goals (exact th_connect_pick_onlyCameraErrors _ _ _ _ e he)

theorem th_connect_main_onlyCameraErrors (o : SDKOracle) (s' : TransportState)
    (cfg : Option DeviceConfig) :
    ∀ e, (th_connect_main o s' cfg).2 = .error e → e.isCameraError = true := by
  intro e he
  unfold th_connect_main connectWrap at he
  repeat' split at he
  any_goals (simp at he)
  any_goals (subst he; rfl)
  all_goals (exact th_connect_find_onlyCameraErrors _ _ _ e he)

theorem th_connect_device_onlyCameraErrors (o : SDKOracle) (s : TransportState)
    (cfg : Option DeviceConfig) :
    ∀ e, (th_connect_device o s cfg).2 = .error e → e.isCameraError = true := by
  intro e he
  unfold th_connect_device connectWrap at he
  repeat' split at he
  any_goals (simp at he)
  try any_goals (subst he; rfl)
  try any_goals (exact th_connect_main_onlyCameraErrors _ _ _ e he)
  try all_goals
    rcases h2 : (th_init o s).2 with e2 | u2 <;> rw [h2] at he <;> simp at he
  try any_goals (subst he; rfl)
  all_goals (exact th_connect_main_onlyCameraErrors _ _ _ e he)

theorem th_disconnect_reset_onlyCameraErrors (o : SDKOracle) (s₂ : TransportState) :
    ∀ e, (th_disconnect_reset o s₂).2 = .error e → e.isCameraError = true := by
  intro e he
  unfold th_disconnect_reset at he
  repeat' split at he
  any_goals (simp at he)
  all_goals (subst he; rfl)

theorem th_disconnect_destroy_onlyCameraErrors (o : SDKOracle) (s' : TransportState) :
    ∀ e, (th_disconnect_destroy o s').2 = .error e → e.isCameraError = true := by
  intro e he
  unfold th_disconnect_destroy at he
  repeat' split at he
  any_goals (simp at he)
  any_goals (subst he; rfl)
  all_goals (exact th_disconnect_reset_onlyCameraErrors _ _ e he)

theorem th_disconnect_device_onlyCameraErrors (o : SDKOracle) (s : TransportState) :
    ∀ e, (th_disconnect_device o s).2 = .error e → e.isCameraError = true := by
  intro e he
  unfold th_disconnect_device at he
  repeat' split at he
  any_goals (simp at he)
  try any_goals (subst he; rfl)
  try any_goals (exact th_disconnect_destroy_onlyCameraErrors _ _ e he)
  try all_goals
    rcases h2 : (th_stop_acquisition o s).2 with e2 | u2 <;> rw [h2] at he <;> simp at he
  try any_goals (subst he; rfl)
  all_goals (exact th_disconnect_destroy_onlyCameraErrors _ _ e he)

theorem th_start_acquisition_onlyCameraErrors (o : SDKOracle) (s : TransportState) :
    ∀ e, (th_start_acquisition o s).2 = .error e → e.isCameraError = true := by
  intro e he
  unfold th_start_acquisition at he
  repeat' split at he
  all_goals simp at he
  all_goals (subst he; rfl)

theorem th_stop_acquisition_onlyCameraErrors (o : SDKOracle) (s : TransportState) :
    ∀ e, (th_stop_acquisition o s).2 = .error e → e.isCameraError = true := by
  intro e he
  unfold th_stop_acquisition at he
  repeat' split at he
  all_goals simp at he
  all_goals (subst he; rfl)

theorem th_get_frame_onlyCameraErrors (o : SDKOracle) (s : TransportState)
    (timeout_ms : Nat) :
    ∀ e, (th_get_frame o s timeout_ms).2 = .error e → e.isCameraError = true := by
  intro e he
  unfold th_get_frame at he
  repeat' split at he
  all_goals simp at he
  all_goals (subst he; rfl)

theorem th_set_node_value_onlyCameraErrors (o : SDKOracle) (s : TransportState)
    (node_name : String) (v : PyVal) :
    ∀ e, th_set_node_value o s node_name v = .error e → e.isCameraError = true := by
  intro e he
  unfold th_set_node_value at he
  repeat' split at he
  all_goals simp at he
  all_goals (subst he; rfl)

theorem th_get_node_value_onlyCameraErrors (o : SDKOracle) (s : TransportState)
    (node_name : String) :
    ∀ e, th_get_node_value o s node_name = .error e → e.isCameraError = true := by
  intro e he
  unfold th_get_node_value at he
  repeat' split at he
  all_goals simp at he
  all_goals (subst he; rfl)

/-- C6: every operation of the transport wrapper (`initialize`,
`connect_device`, `disconnect_device`, `start_acquisition`,
`stop_acquisition`, `get_frame`, `set_node_value`, `get_node_value`) raises
only the local `CameraError` type, for every behavior of the underlying
acquisition library (the oracle `o`, whose calls may raise arbitrary
exceptions): no foreign exception type escapes the wrapper. -/
theorem transport_wrapper_translates_all_errors (o : SDKOracle) (s : TransportState)
    (cfg : Option DeviceConfig) (timeout_ms : Nat) (node_name : String) (v : PyVal) :
    (∀ e, (th_init o s).2 = .error e → e.isCameraError = true) ∧
    (∀ e, (th_connect_device o s cfg).2 = .error e → e.isCameraError = true) ∧
    (∀ e, (th_disconnect_device o s).2 = .error e → e.isCameraError = true) ∧
    (∀ e, (th_start_acquisition o s).2 = .error e → e.isCameraError = true) ∧
    (∀ e, (th_stop_acquisition o s).2 = .error e → e.isCameraError = true) ∧
    (∀ e, (th_get_frame o s timeout_ms).2 = .error e → e.isCameraError = true) ∧
    (∀ e, th_set_node_value o s node_name v = .error e → e.isCameraError = true) ∧
    (∀ e, th_get_node_value o s node_name = .error e → e.isCameraError = true) :=
  ⟨th_init_onlyCameraErrors o s, th_connect_device_onlyCameraErrors o s cfg,
   th_disconnect_device_onlyCameraErrors o s, th_start_acquisition_onlyCameraErrors o s,
   th_stop_acquisition_onlyCameraErrors o s, th_get_frame_onlyCameraErrors o s timeout_ms,
   th_set_node_value_onlyCameraErrors o s node_name v,
   th_get_node_value_onlyCameraErrors o s node_name⟩

/-- A library oracle whose CTI load raises a foreign exception. -/
def failingSDK : SDKOracle where
  harvester_ctor := .ok ()
  add_file := .error (.otherError "GenTL load failure")
  update := .ok ()
  device_info_list := []
  create := fun _ => .ok 3
  ia_start := fun _ => .ok ()
  ia_stop := fun _ => .ok ()
  ia_destroy := fun _ => .ok ()
  harvester_reset := .ok ()
  fetch := fun _ _ => .ok ⟨some []⟩
  get_node := fun _ _ => .ok none
  node_write := fun _ _ _ => .ok ()

/-- A freshly constructed `TransportHarvesters` state. -/
def freshTransport : TransportState where
  harvester := false
  image_acquirer := none
  devices_list := []
  is_connected := false
  is_acquiring := false

/-- Witness for C6: a concrete foreign failure in `add_file` comes out of
`initialize` as a `CameraError`. -/
theorem transport_wrapper_translates_all_errors_witness :
    PyErr.isCameraError
      (.cameraError ("Failed to initialize Harvester: GenTL load failure")) = true :=
  (transport_wrapper_translates_all_errors failingSDK freshTransport none 5000
    "Gain" (.int 0)).1 _ rfl

/-! ## `connect_device` never sets the connected flag -/

theorem th_init_is_connected (o : SDKOracle) (s : TransportState) :
    (th_init o s).1.is_connected = s.is_connected := by
  unfold th_init
  repeat' split
  all_goals rfl

theorem th_list_devices_is_connected (o : SDKOracle) (s : TransportState) :
    (th_list_devices o s).1.is_connected = s.is_connected := by
  unfold th_list_devices
  repeat' split
  any_goals simp [th_init_is_connected]
  all_goals
    rcases h2 : (th_init o s).2 with e2 | u2 <;> simp [th_init_is_connected o s]

theorem th_connect_pick_is_connected (o : SDKOracle) (c : DeviceConfig)
    (s'' : TransportState) (devices : List DeviceInfo) :
    (th_connect_pick o c s'' devices).1.is_connected = s''.is_connected := by
  unfold th_connect_pick
  repeat' split
  all_goals rfl

theorem th_connect_find_is_connected (o : SDKOracle) (s' : TransportState)
    (cfg : Option DeviceConfig) :
    (th_connect_find o s' cfg).1.is_connected = s'.is_connected := by
  unfold th_connect_find
  repeat' split
  any_goals rfl
  all_goals
    rcases h2 : (th_list_devices o s').2 with e2 | devs <;>
      simp [h2, th_list_devices_is_connected, th_connect_pick_is_connected]

theorem th_connect_main_is_connected (o : SDKOracle) (s' : TransportState)
    (cfg : Option DeviceConfig) :
    (th_connect_main o s' cfg).1.is_connected = s'.is_connected := by
  unfold th_connect_main
  repeat' split
  any_goals rfl
  all_goals exact th_connect_find_is_connected o s' cfg

theorem th_connect_device_is_connected (o : SDKOracle) (s : TransportState)
    (cfg : Option DeviceConfig) :
    (th_connect_device o s cfg).1.is_connected = s.is_connected := by
  unfold th_connect_device
  repeat' split
  any_goals rfl
  all_goals
    rcases h2 : (th_init o s).2 with e2 | u2 <;>
      simp [h2, th_init_is_connected, th_connect_main_is_connected]

theorem th_start_on_disconnected (o : SDKOracle) (s : TransportState)
    (h : s.is_connected = false) :
    (th_start_acquisition o s).2 =
      .error (.cameraError "No device connected. Call connect_device() first.") := by
  unfold th_start_acquisition
  rw [if_pos (by simp [h])]

theorem th_get_frame_on_disconnected (o : SDKOracle) (s : TransportState)
    (timeout_ms : Nat) (h : s.is_connected = false) :
    (th_get_frame o s timeout_ms).2 = .error (.cameraError "No device connected.") := by
  unfold th_get_frame
  rw [if_pos (by simp [h])]

theorem th_connect_pick_acquiring (o : SDKOracle) (c : DeviceConfig)
    (s'' : TransportState) (devices : List DeviceInfo) (ia : Nat)
    (h : (th_connect_pick o c s'' devices).2 = .ok ia) :
    (th_connect_pick o c s'' devices).1.is_acquiring = true := by
  unfold th_connect_pick at h ⊢
  rcases hf : findMatchIdx c devices with _ | idx <;> simp only [hf] at h ⊢
  · simp at h
  · rcases hc2 : o.create idx with e2 | ia2 <;> simp only [hc2] at h ⊢
    try any_goals simp at h
    all_goals rfl

theorem th_connect_find_acquiring (o : SDKOracle) (s' : TransportState)
    (c : DeviceConfig) (ia : Nat) (hc : c.isEmptyDict = false)
    (h : (th_connect_find o s' (some c)).2 = .ok ia) :
    (th_connect_find o s' (some c)).1.is_acquiring = true := by
  unfold th_connect_find at h ⊢
  simp only [hc, Bool.false_eq_true, if_false] at h ⊢
  rcases h2 : (th_list_devices o s').2 with e2 | devs <;> simp only [h2] at h ⊢
  try any_goals simp at h
  all_goals exact th_connect_pick_acquiring _ _ _ _ ia h

theorem th_connect_main_acquiring (o : SDKOracle) (s' : TransportState)
    (c : DeviceConfig) (ia : Nat) (hc : c.isEmptyDict = false)
    (h : (th_connect_main o s' (some c)).2 = .ok ia) :
    (th_connect_main o s' (some c)).1.is_acquiring = true := by
  unfold th_connect_main at h ⊢
  rcases hu : o.update with e | u <;> simp only [hu] at h ⊢
  all_goals by_cases hd : o.device_info_list.isEmpty = true
  all_goals first
    | (rw [if_pos hd] at h; simp at h)
    | (rw [if_neg hd] at h ⊢; exact th_connect_find_acquiring o s' c ia hc h)
    | simp at h

theorem th_connect_device_acquiring (o : SDKOracle) (s : TransportState)
    (c : DeviceConfig) (ia : Nat) (hcon : s.is_connected = false)
    (hc : c.isEmptyDict = false)
    (h : (th_connect_device o s (some c)).2 = .ok ia) :
    (th_connect_device o s (some c)).1.is_acquiring = true := by
  unfold th_connect_device at h ⊢
  rw [if_neg (by simp [hcon])] at h ⊢
  by_cases hh : s.harvester = true
  · rw [if_neg (not_not_intro hh)] at h ⊢
    exact th_connect_main_acquiring o s c ia hc h
  · rw [if_pos hh] at h ⊢
    rcases h2 : (th_init o s).2 with e2 | u2 <;> simp only [h2] at h ⊢
    try any_goals simp at h
    all_goals exact th_connect_main_acquiring o _ c ia hc h

/-- C9: `TransportHarvesters.connect_device` never sets the connected flag:
`is_connected` is exactly preserved (in particular it stays `False` after
every successful call on a fresh transport), and a criteria-matched connect
(a non-empty config dict with a successful result) sets `is_acquiring` to
`True` instead; consequently `start_acquisition` and `get_frame` on the
post-connect transport raise `CameraError` reporting no device connected. -/
theorem connect_device_never_sets_connected (o : SDKOracle) (s : TransportState)
    (cfg : Option DeviceConfig) (timeout_ms : Nat) :
    (th_connect_device o s cfg).1.is_connected = s.is_connected ∧
    (s.is_connected = false →
      (th_start_acquisition o (th_connect_device o s cfg).1).2 =
        .error (.cameraError "No device connected. Call connect_device() first.") ∧
      (th_get_frame o (th_connect_device o s cfg).1 timeout_ms).2 =
        .error (.cameraError "No device connected.") ∧
      (∀ c ia, cfg = some c → c.isEmptyDict = false →
        (th_connect_device o s cfg).2 = .ok ia →
        (th_connect_device o s cfg).1.is_acquiring = true)) := by
  refine ⟨th_connect_device_is_connected o s cfg, ?_⟩
  intro hcon
  have hpost : (th_connect_device o s cfg).1.is_connected = false := by
    rw [th_connect_device_is_connected]
    exact hcon
  refine ⟨th_start_on_disconnected o _ hpost,
    th_get_frame_on_disconnected o _ timeout_ms hpost, ?_⟩
  intro c ia hcfg hc h
  subst hcfg
  exact th_connect_device_acquiring o s c ia hcon hc h

/-- A concrete device visible to the library oracle. -/
def demoDevice : DeviceInfo where
  id := "00:11::10.0.0.5"
  vendor := "AT"
  model := "C5"
  serial_number := "SN1"
  user_defined_name := "cam-left"

/-- An oracle exposing one device, with all calls succeeding. -/
def demoSDK : SDKOracle where
  harvester_ctor := .ok ()
  add_file := .ok ()
  update := .ok ()
  device_info_list := [demoDevice]
  create := fun _ => .ok 42
  ia_start := fun _ => .ok ()
  ia_stop := fun _ => .ok ()
  ia_destroy := fun _ => .ok ()
  harvester_reset := .ok ()
  fetch := fun _ _ => .ok ⟨some []⟩
  get_node := fun _ _ => .ok none
  node_write := fun _ _ _ => .ok ()

/-- A device config matching `demoDevice` by user-defined name. -/
def demoCfg : DeviceConfig := ⟨some "cam-left", none, none⟩

/-- Witness for C9: a concrete criteria-matched successful connect leaves
`is_connected` false, sets `is_acquiring`, and the subsequent start fails. -/
theorem connect_device_never_sets_connected_witness :
    (th_connect_device demoSDK freshTransport (some demoCfg)).1.is_connected = false ∧
    (th_connect_device demoSDK freshTransport (some demoCfg)).1.is_acquiring = true ∧
    (th_start_acquisition demoSDK
        (th_connect_device demoSDK freshTransport (some demoCfg)).1).2 =
      .error (.cameraError "No device connected. Call connect_device() first.") := by
  have h := connect_device_never_sets_connected demoSDK freshTransport (some demoCfg) 5000
  exact ⟨h.1, (h.2 rfl).2.2 demoCfg 42 rfl rfl rfl, (h.2 rfl).1⟩

/-! ## `acquire_frame` lifecycle and rollback -/

/-- A transport whose `stop_image_acquirer` always fails (start and fetch
succeed). -/
def stopFailTransport : CamTransport where
  init := .ok ()
  create_image_acquirer := fun _ => .ok 1
  start_image_acquirer := fun _ => .ok ()
  stop_image_acquirer := fun _ => .error (.otherError "stop refused")
  fetch_from_acquirer := fun _ _ => .ok []
  destroy_image_acquirer := fun _ => .ok ()
  reset := .ok ()
  set_node_value := fun _ _ _ => .ok ()
  get_node_value := fun _ _ => .ok (.int 0)

/-- C2 counterexample: on a camera with one idle acquirer and a transport
whose stop call fails, `acquire_frame` raises `CameraError` but leaves the
acquirer's tracked acquiring state `True` — it is not rolled back to
`False` (the rollback's own `stop_acquisition` fails and is swallowed). -/
theorem acquire_frame_rollback_counterexample :
    (cb_acquire_frame stopFailTransport oneAcquirerIdle 0 none).1.getAcq 4 = true ∧
    errKind (cb_acquire_frame stopFailTransport oneAcquirerIdle 0 none).2 =
      some .cameraError := by
  constructor <;> rfl

/-- C2 (amended): on a camera whose index resolves to acquirer `ia` and a
transport whose `stop_image_acquirer ia` succeeds, `acquire_frame` sequences
start, fetch, stop in that order: when start and fetch succeed it returns
the fetched frame with the acquirer left non-acquiring, and on any failure
it raises `CameraError` with the acquiring state rolled back to `False`.
(The original claim fails when the transport's stop call itself fails:
the rollback is then swallowed and the acquirer stays acquiring, see the
counterexample.) -/
theorem acquire_frame_lifecycle (t : CamTransport) (s : CameraState) (i : Int)
    (to_ms : Option Nat) (ia : Nat)
    (hia : pyGet s.acquirers i = some ia)
    (hstop : t.stop_image_acquirer ia = .ok ()) :
    (∀ f, t.start_image_acquirer ia = .ok () →
      t.fetch_from_acquirer ia (pyOrTimeout to_ms s.timeout_ms) = .ok f →
      cb_acquire_frame t s i to_ms = (s.setAcq ia false, .ok (some f))) ∧
    (∀ s' e, cb_acquire_frame t s i to_ms = (s', .error e) →
      e.kind = .cameraError ∧ s'.getAcq ia = false) := by
  have hlen : i < (s.acquirers.length : Int) := pyGet_lt_length hia
  have hstart_eq := cb_start_reduce t s i ia hia
  have hia1 : pyGet (s.setAcq ia true).acquirers i = some ia := by
    rw [setAcq_acquirers]
    exact hia
  have hacq1 : (s.setAcq ia true).getAcq ia = true := getAcq_setAcq s ia true
  have h3' : cb_stop_acquisition t (s.setAcq ia true) i =
      .ok ((s.setAcq ia true).setAcq ia false) := by
    rw [cb_stop_reduce t _ i ia hia1, if_neg (not_not_intro hacq1), hstop]
  constructor
  · intro f hstart hfetch
    by_cases hacq : s.getAcq ia = true
    · have h1 : cb_start_acquisition t s i = .ok s := by
        rw [hstart_eq, if_pos hacq]
      have h2 : cb_get_frame t s i to_ms = .ok (some f) := by
        rw [cb_get_frame_reduce t s i to_ms ia hia, if_neg (not_not_intro hacq), hfetch]
      have h3 : cb_stop_acquisition t s i = .ok (s.setAcq ia false) := by
        rw [cb_stop_reduce t s i ia hia, if_neg (not_not_intro hacq), hstop]
      simp only [cb_acquire_frame, h1, h2, h3]
    · have h1 : cb_start_acquisition t s i = .ok (s.setAcq ia true) := by
        rw [hstart_eq, if_neg hacq, hstart]
      have hfetch1 : t.fetch_from_acquirer ia
          (pyOrTimeout to_ms (s.setAcq ia true).timeout_ms) = .ok f := hfetch
      have h2 : cb_get_frame t (s.setAcq ia true) i to_ms = .ok (some f) := by
        rw [cb_get_frame_reduce t _ i to_ms ia hia1, if_neg (not_not_intro hacq1), hfetch1]
      simp only [cb_acquire_frame, h1, h2, h3']
      rw [setAcq_setAcq]
  · intro s' e hrun
    by_cases hacq : s.getAcq ia = true
    · have h1 : cb_start_acquisition t s i = .ok s := by
        rw [hstart_eq, if_pos hacq]
      have h3 : cb_stop_acquisition t s i = .ok (s.setAcq ia false) := by
        rw [cb_stop_reduce t s i ia hia, if_neg (not_not_intro hacq), hstop]
      rcases hf : t.fetch_from_acquirer ia (pyOrTimeout to_ms s.timeout_ms) with ef | f
      · by_cases hst : s.strict = true
        · have h2 : cb_get_frame t s i to_ms = .error (.acquisitionError
              ("Failed to fetch frame from acquirer " ++ toString i ++ ": "
                ++ ef.message)) := by
            rw [cb_get_frame_reduce t s i to_ms ia hia, if_neg (not_not_intro hacq), hf]
            simp [hst]
          have hrb : cb_acquireRollback t s i = s.setAcq ia false := by
            unfold cb_acquireRollback
            rw [if_pos hlen]
            simp only [hia]
            rw [if_pos hacq]
            simp only [h3]
          simp only [cb_acquire_frame, h1, h2, hrb] at hrun
          have hs' : s.setAcq ia false = s' := congrArg Prod.fst hrun
          have he' : Except.error (PyErr.cameraError
              ("Failed to acquire frame: " ++ ("Failed to fetch frame from acquirer "
                ++ toString i ++ ": " ++ ef.message))) = (Except.error e :
                  Except PyErr (Option PyFrame)) := congrArg Prod.snd hrun
          have he'' : e = PyErr.cameraError ("Failed to acquire frame: "
              ++ ("Failed to fetch frame from acquirer " ++ toString i ++ ": "
                ++ ef.message)) := by
            cases he'
            rfl
          subst he''
          refine ⟨rfl, ?_⟩
          rw [← hs']
          exact getAcq_setAcq s ia false
        · have h2 : cb_get_frame t s i to_ms = .ok none := by
            rw [cb_get_frame_reduce t s i to_ms ia hia, if_neg (not_not_intro hacq), hf]
            simp [hst]
          simp only [cb_acquire_frame, h1, h2, h3] at hrun
          simp at hrun
      · have h2 : cb_get_frame t s i to_ms = .ok (some f) := by
          rw [cb_get_frame_reduce t s i to_ms ia hia, if_neg (not_not_intro hacq), hf]
        simp only [cb_acquire_frame, h1, h2, h3] at hrun
        simp at hrun
    · rcases hs : t.start_image_acquirer ia with es | u
      · have h1 : cb_start_acquisition t s i = .error (.acquisitionError
            ("Failed to start acquisition on acquirer " ++ toString i ++ ": "
              ++ es.message)) := by
          rw [hstart_eq, if_neg hacq, hs]
        have hrb : cb_acquireRollback t s i = s := by
          unfold cb_acquireRollback
          rw [if_pos hlen]
          simp only [hia]
          rw [if_neg hacq]
        simp only [cb_acquire_frame, h1, hrb] at hrun
        have hs' : s = s' := congrArg Prod.fst hrun
        have he' : Except.error (PyErr.cameraError ("Failed to acquire frame: "
            ++ ("Failed to start acquisition on acquirer " ++ toString i ++ ": "
              ++ es.message))) = (Except.error e : Except PyErr (Option PyFrame)) :=
          congrArg Prod.snd hrun
        have he'' : e = PyErr.cameraError ("Failed to acquire frame: "
            ++ ("Failed to start acquisition on acquirer " ++ toString i ++ ": "
              ++ es.message)) := by
          cases he'
          rfl
        subst he''
        refine ⟨rfl, ?_⟩
        rw [← hs']
        exact Bool.eq_false_iff.mpr hacq
      · have h1 : cb_start_acquisition t s i = .ok (s.setAcq ia true) := by
          rw [hstart_eq, if_neg hacq, hs]
        rcases hf : t.fetch_from_acquirer ia (pyOrTimeout to_ms s.timeout_ms) with ef | f
        · by_cases hst : s.strict = true
          · have hst1 : (s.setAcq ia true).strict = true := hst
            have hf1 : t.fetch_from_acquirer ia
                (pyOrTimeout to_ms (s.setAcq ia true).timeout_ms) = .error ef := hf
            have h2 : cb_get_frame t (s.setAcq ia true) i to_ms =
                .error (.acquisitionError
                  ("Failed to fetch frame from acquirer " ++ toString i ++ ": "
                    ++ ef.message)) := by
              rw [cb_get_frame_reduce t _ i to_ms ia hia1,
                if_neg (not_not_intro hacq1), hf1]
              simp [hst1]
            have hlen1 : i < ((s.setAcq ia true).acquirers.length : Int) := by
              rw [setAcq_acquirers]
              exact hlen
            have hrb : cb_acquireRollback t (s.setAcq ia true) i =
                (s.setAcq ia true).setAcq ia false := by
              unfold cb_acquireRollback
              rw [if_pos hlen1]
              simp only [hia1]
              rw [if_pos hacq1]
              simp only [h3']
            simp only [cb_acquire_frame, h1, h2, hrb] at hrun
            have hs' : (s.setAcq ia true).setAcq ia false = s' :=
              congrArg Prod.fst hrun
            have he' : Except.error (PyErr.cameraError ("Failed to acquire frame: "
                ++ ("Failed to fetch frame from acquirer " ++ toString i ++ ": "
                  ++ ef.message))) = (Except.error e : Except PyErr (Option PyFrame)) :=
              congrArg Prod.snd hrun
            have he'' : e = PyErr.cameraError ("Failed to acquire frame: "
                ++ ("Failed to fetch frame from acquirer " ++ toString i ++ ": "
                  ++ ef.message)) := by
              cases he'
              rfl
            subst he''
            refine ⟨rfl, ?_⟩
            rw [← hs', setAcq_setAcq]
            exact getAcq_setAcq s ia false
          · have hst1 : (s.setAcq ia true).strict = s.strict := rfl
            have hf1 : t.fetch_from_acquirer ia
                (pyOrTimeout to_ms (s.setAcq ia true).timeout_ms) = .error ef := hf
            have h2 : cb_get_frame t (s.setAcq ia true) i to_ms = .ok none := by
              rw [cb_get_frame_reduce t _ i to_ms ia hia1,
                if_neg (not_not_intro hacq1), hf1, hst1]
              simp [hst]
            simp only [cb_acquire_frame, h1, h2, h3'] at hrun
            simp at hrun
        · have hf1 : t.fetch_from_acquirer ia
              (pyOrTimeout to_ms (s.setAcq ia true).timeout_ms) = .ok f := hf
          have h2 : cb_get_frame t (s.setAcq ia true) i to_ms = .ok (some f) := by
            rw [cb_get_frame_reduce t _ i to_ms ia hia1,
              if_neg (not_not_intro hacq1), hf1]
          simp only [cb_acquire_frame, h1, h2, h3'] at hrun
          simp at hrun

/-- Witness for C2 at a concrete camera and all-succeeding transport. -/
theorem acquire_frame_lifecycle_witness :
    cb_acquire_frame okTransport oneAcquirerIdle 0 none =
      (oneAcquirerIdle.setAcq 4 false, .ok (some [])) :=
  (acquire_frame_lifecycle okTransport oneAcquirerIdle 0 none 4 rfl rfl).1 [] rfl rfl

/-! ## Dual-sensor `capture_frames` teardown -/

/-- A transport where the second sensor's start and every stop call fail. -/
def dualFailTransport : CamTransport where
  init := .ok ()
  create_image_acquirer := fun _ => .ok 1
  start_image_acquirer := fun ia =>
    if ia == 9 then .error (.otherError "sensor 2 start refused") else .ok ()
  stop_image_acquirer := fun _ => .error (.otherError "stop refused")
  fetch_from_acquirer := fun _ _ => .ok []
  destroy_image_acquirer := fun _ => .ok ()
  reset := .ok ()
  set_node_value := fun _ _ _ => .ok ()
  get_node_value := fun _ _ => .ok (.int 0)

/-- C3 counterexample: in dual-sensor mode with two registered acquirers,
when only the first sensor started and the teardown's stop call itself
fails, `capture_frames` raises `CameraError` but leaves the first acquirer
in the acquiring state — the fail-safe teardown does not guarantee that no
acquirer is left acquiring. -/
theorem capture_frames_teardown_counterexample :
    (at_capture_frames dualFailTransport "dual_sensor" twoAcquirersIdle none).1.getAcq 4
      = true ∧
    errKind (at_capture_frames dualFailTransport "dual_sensor" twoAcquirersIdle none).2 =
      some .cameraError := by
  constructor <;> rfl

theorem cb_start_ok_acquirers {t : CamTransport} {s s' : CameraState} {i : Int}
    (h : cb_start_acquisition t s i = .ok s') : s'.acquirers = s.acquirers := by
  unfold cb_start_acquisition at h
  repeat' split at h
  all_goals simp at h
  all_goals subst h
  all_goals rfl

theorem cb_stop_ok_acquirers {t : CamTransport} {s s' : CameraState} {i : Int}
    (h : cb_stop_acquisition t s i = .ok s') : s'.acquirers = s.acquirers := by
  unfold cb_stop_acquisition at h
  repeat' split at h
  all_goals simp at h
  all_goals subst h
  all_goals rfl

theorem at_start_fst_acquirers (t : CamTransport) (topo : String) (s : CameraState)
    (i : Int) : (at_start_acquisition t topo s i).1.acquirers = s.acquirers := by
  unfold at_start_acquisition
  by_cases hts : topo = "single_sensor"
  · rw [if_pos hts]
    rcases hcb : cb_start_acquisition t s i with e1 | s1 <;> simp only [hcb]
    all_goals try rfl
    all_goals exact cb_start_ok_acquirers hcb
  · rw [if_neg hts]
    by_cases hl : s.acquirers.length < 2
    · rw [if_pos hl]
    · rw [if_neg hl]
      rcases hcb : cb_start_acquisition t s 0 with e1 | s1 <;> simp only [hcb]
      all_goals try rfl
      all_goals rcases hcb2 : cb_start_acquisition t s1 1 with e2 | s2 <;>
        simp only [hcb2]
      all_goals try exact cb_start_ok_acquirers hcb
      all_goals rw [cb_start_ok_acquirers hcb2, cb_start_ok_acquirers hcb]

/-- Under stop calls that succeed for both resolved acquirers, the
dual-sensor vendor stop succeeds and leaves both non-acquiring. -/
theorem at_stop_clears (t : CamTransport) (s₀ : CameraState) (a b : Nat)
    (ha : pyGet s₀.acquirers 0 = some a) (hb : pyGet s₀.acquirers 1 = some b)
    (hsa : t.stop_image_acquirer a = .ok ()) (hsb : t.stop_image_acquirer b = .ok ()) :
    ∃ s₁, at_stop_acquisition t "dual_sensor" s₀ 0 = (s₁, .ok ()) ∧
      s₁.getAcq a = false ∧ s₁.getAcq b = false := by
  have hlen2 : 2 ≤ s₀.acquirers.length := by
    have := pyGet_lt_length hb
    omega
  unfold at_stop_acquisition
  rw [if_neg (by decide : ¬("dual_sensor" : String) = "single_sensor"),
    if_neg (by omega : ¬ s₀.acquirers.length < 2)]
  have hstop0 : ∃ sA, cb_stop_acquisition t s₀ 0 = .ok sA ∧ sA.getAcq a = false ∧
      sA.acquirers = s₀.acquirers ∧ ∀ x, x ≠ a → sA.getAcq x = s₀.getAcq x := by
    rw [cb_stop_reduce t s₀ 0 a ha]
    by_cases hacqa : s₀.getAcq a = true
    · rw [if_neg (not_not_intro hacqa), hsa]
      exact ⟨_, rfl, getAcq_setAcq s₀ a false, setAcq_acquirers s₀ a false,
        fun x hx => getAcq_setAcq_ne s₀ a x false hx⟩
    · rw [if_pos hacqa]
      exact ⟨s₀, rfl, Bool.eq_false_iff.mpr hacqa, rfl, fun _ _ => rfl⟩
  obtain ⟨sA, hA, hAa, hAacq, _⟩ := hstop0
  have hbA : pyGet sA.acquirers 1 = some b := by
    rw [hAacq]
    exact hb
  have hstop1 : ∃ sB, cb_stop_acquisition t sA 1 = .ok sB ∧ sB.getAcq b = false ∧
      sB.getAcq a = false := by
    rw [cb_stop_reduce t sA 1 b hbA]
    by_cases hacqb : sA.getAcq b = true
    · rw [if_neg (not_not_intro hacqb), hsb]
      exact ⟨_, rfl, getAcq_setAcq sA b false,
        getAcq_false_after_setAcq_false sA b a hAa⟩
    · rw [if_pos hacqb]
      exact ⟨sA, rfl, Bool.eq_false_iff.mpr hacqb, hAa⟩
  obtain ⟨sB, hB, hBb, hBa⟩ := hstop1
  refine ⟨sB, ?_, hBa, hBb⟩
  simp only [hA, hB]

/-- C3 (amended): in dual-sensor mode with two registered acquirers whose
transport stop calls succeed, whenever `capture_frames` fails at any stage
— including when only the first of the two sensors was successfully
started — the fail-safe teardown leaves no acquirer in the acquiring state
and `CameraError` wrapping the original failure is raised. (The original
claim fails when the teardown's own stop call fails: that failure is
swallowed and the first acquirer stays acquiring, see the
counterexample.) -/
theorem capture_frames_teardown (t : CamTransport) (s : CameraState)
    (to_ms : Option Nat) (a b : Nat)
    (ha : pyGet s.acquirers 0 = some a) (hb : pyGet s.acquirers 1 = some b)
    (hstopa : t.stop_image_acquirer a = .ok ()) (hstopb : t.stop_image_acquirer b = .ok ()) :
    ∀ s' e, at_capture_frames t "dual_sensor" s to_ms = (s', .error e) →
      e.kind = .cameraError ∧ s'.getAcq a = false ∧ s'.getAcq b = false := by
  intro s' e hrun
  have hlen2 : 2 ≤ s.acquirers.length := by
    have := pyGet_lt_length hb
    omega
  unfold at_capture_frames at hrun
  rw [if_neg (by omega : ¬ s.acquirers.length < 2)] at hrun
  rcases hstart : at_start_acquisition t "dual_sensor" s 0 with ⟨s1, r1⟩
  have hs1acq : s1.acquirers = s.acquirers := by
    have h0 := at_start_fst_acquirers t "dual_sensor" s 0
    rw [hstart] at h0
    exact h0
  have ha1 : pyGet s1.acquirers 0 = some a := by
    rw [hs1acq]
    exact ha
  have hb1 : pyGet s1.acquirers 1 = some b := by
    rw [hs1acq]
    exact hb
  obtain ⟨sc, hsc, hsca, hscb⟩ := at_stop_clears t s1 a b ha1 hb1 hstopa hstopb
  have hrb : at_captureRollback t "dual_sensor" s1 = sc := by
    unfold at_captureRollback
    rw [hsc]
  cases r1 with
  | error e1 =>
    simp only [hstart, hrb] at hrun
    have hs' : sc = s' := congrArg Prod.fst hrun
    have he' : (Except.error (PyErr.cameraError ("Failed to acquire dual frames: "
        ++ e1.message)) : Except PyErr FramesDict) = Except.error e :=
      congrArg Prod.snd hrun
    have he'' : e = PyErr.cameraError ("Failed to acquire dual frames: " ++ e1.message) := by
      cases he'
      rfl
    subst he''
    exact ⟨rfl, hs' ▸ hsca, hs' ▸ hscb⟩
  | ok u =>
    simp only [hstart] at hrun
    rcases hg : at_get_frames t "dual_sensor" s1 to_ms with eg | frames
    · simp only [hg, hrb] at hrun
      have hs' : sc = s' := congrArg Prod.fst hrun
      have he' : (Except.error (PyErr.cameraError ("Failed to acquire dual frames: "
          ++ eg.message)) : Except PyErr FramesDict) = Except.error e :=
        congrArg Prod.snd hrun
      have he'' : e = PyErr.cameraError ("Failed to acquire dual frames: "
          ++ eg.message) := by
        cases he'
        rfl
      subst he''
      exact ⟨rfl, hs' ▸ hsca, hs' ▸ hscb⟩
    · simp only [hg, hsc] at hrun
      have hcontra := congrArg Prod.snd hrun
      simp at hcontra

/-- A transport where only the second sensor's start fails (stops succeed). -/
def dualStartFailTransport : CamTransport where
  init := .ok ()
  create_image_acquirer := fun _ => .ok 1
  start_image_acquirer := fun ia =>
    if ia == 9 then .error (.otherError "sensor 2 start refused") else .ok ()
  stop_image_acquirer := fun _ => .ok ()
  fetch_from_acquirer := fun _ _ => .ok []
  destroy_image_acquirer := fun _ => .ok ()
  reset := .ok ()
  set_node_value := fun _ _ _ => .ok ()
  get_node_value := fun _ _ => .ok (.int 0)

/-- Witness for C3: a concrete partial start failure with succeeding stops
leaves both acquirers non-acquiring. -/
theorem capture_frames_teardown_witness :
    (at_capture_frames dualStartFailTransport "dual_sensor" twoAcquirersIdle none).1.getAcq 4
      = false ∧
    (at_capture_frames dualStartFailTransport "dual_sensor" twoAcquirersIdle none).1.getAcq 9
      = false := by
  have h := capture_frames_teardown dualStartFailTransport twoAcquirersIdle none 4 9
    rfl rfl rfl rfl
    (at_capture_frames dualStartFailTransport "dual_sensor" twoAcquirersIdle none).1
    (PyErr.cameraError
      "Failed to acquire dual frames: Failed to start acquisition on acquirer 1: sensor 2 start refused")
    rfl
  exact ⟨h.2.1, h.2.2⟩

/-! ## The factory never completes construction (C1) -/

/-- C1 (code bug): for every parsed configuration in which the named
camera entry exists, the CTI path resolves, and the vendor/scanType/topology
combination normalizes to the registered `CameraATSensors3D` entry,
`create_camera` raises `CameraError` instead of returning an initialized
camera: `CameraATSensors3D.__init__` forwards three keyword arguments to
`CameraBase.__init__`, which accepts only `config`, so construction always
raises `TypeError`, which the factory wraps in `CameraError`. -/
theorem create_camera_registered_combo_raises
    (pw : Bool) (rc : RootConfig) (name : String) (hname : ¬ name = "")
    (api : ApiConfigDict) (hapi : get_api_config pw rc = .ok api)
    (dd : DeviceDataDict) (hdd : get_device_data rc name = .ok dd)
    (gg : DeviceGenicamDict) (hgg : get_device_genicam rc name = .ok gg)
    (hpick : pick_class dd.vendor dd.scanType (some dd.topology) = .ok .atSensors3D) :
    create_camera pw rc name =
      .error (.cameraError ("Failed to initialize camera '" ++ name ++ "': " ++
        "__init__() got an unexpected keyword argument 'api_config_dict'")) := by
  unfold create_camera
  rw [if_neg hname]
  simp only [hapi, hdd, hgg, hpick]
  rfl

def c1Sensor1 : SensorEntry := ⟨some "cam-a", []⟩

def c1Sensor2 : SensorEntry := ⟨some "cam-b", []⟩

/-- A well-formed configuration whose only camera matches the registered
vendor/scanType/topology combination. -/
def c1Config : RootConfig :=
  { linux_cti_path := some "/opt/producer.cti"
    windows_cti_path := none
    library := []
    cameras := [("cam", { vendor := some "AT-Automation Technology GmbH"
                          scanType := some "Linescan3D"
                          topology := some "Dual_Sensor"
                          sensor_1 := some c1Sensor1
                          sensor_2 := some c1Sensor2 })] }

/-- Witness for C1: the concrete registered configuration raises. -/
theorem create_camera_registered_combo_raises_witness :
    create_camera false c1Config "cam" =
      .error (.cameraError
        "Failed to initialize camera 'cam': __init__() got an unexpected keyword argument 'api_config_dict'") := by
  have h := create_camera_registered_combo_raises false c1Config "cam" (by decide)
    ⟨"/opt/producer.cti", []⟩ (by rfl)
    ⟨"cam", some "AT-Automation Technology GmbH", some "Linescan3D", "dual_sensor",
      c1Sensor1, c1Sensor2⟩ (by rfl)
    ⟨[], some []⟩ (by rfl) (by rfl)
  exact h

/-! ## Point-cloud purity and formula (C7) -/

theorem maskSelect_rows (w : Nat) (f : Nat → Nat → ℚ) (m : Nat → Nat → Bool) :
    ∀ hl : List Nat,
      maskSelect (hl.map (fun y => (List.range w).map (f y)))
                 (hl.map (fun y => (List.range w).map (m y))) =
      hl.flatMap (fun y => (List.range w).filterMap
        (fun x => if m y x then some (f y x) else none))
  | [] => rfl
  | y :: t => by
    have ht := maskSelect_rows w f m t
    unfold maskSelect at ht ⊢
    simp only [List.map_cons, List.flatten_cons, List.flatMap_cons]
    rw [List.zip_append (by simp), List.filterMap_append,
      List.zip_map' (f y) (m y) (List.range w), List.filterMap_map, ht]
    rfl

theorem length_filterMap_mask {α : Type} (m : Nat → Bool) (g : Nat → α) :
    ∀ l : List Nat,
      (l.filterMap (fun x => if m x then some (g x) else none)).length = l.countP m
  | [] => rfl
  | x :: t => by
    by_cases hm : m x = true
    · simp [List.filterMap_cons, hm, List.countP_cons, length_filterMap_mask m g t]
    · simp [List.filterMap_cons, hm, List.countP_cons, length_filterMap_mask m g t]

theorem zip_filterMap_mask {α β : Type} (m : Nat → Bool) (a : Nat → α) (b : Nat → β) :
    ∀ l : List Nat,
      (l.filterMap (fun x => if m x then some (a x) else none)).zip
        (l.filterMap (fun x => if m x then some (b x) else none)) =
      l.filterMap (fun x => if m x then some (a x, b x) else none)
  | [] => rfl
  | x :: t => by
    by_cases hm : m x = true
    · simp [List.filterMap_cons, hm, zip_filterMap_mask m a b t]
    · simp [List.filterMap_cons, hm, zip_filterMap_mask m a b t]

theorem zip_mask_flatMap {α β : Type} (w : Nat) (m : Nat → Nat → Bool)
    (a : Nat → Nat → α) (b : Nat → Nat → β) :
    ∀ l : List Nat,
      (l.flatMap (fun y => (List.range w).filterMap
          (fun x => if m y x then some (a y x) else none))).zip
        (l.flatMap (fun y => (List.range w).filterMap
          (fun x => if m y x then some (b y x) else none))) =
      l.flatMap (fun y => (List.range w).filterMap
        (fun x => if m y x then some (a y x, b y x) else none))
  | [] => rfl
  | y :: t => by
    simp only [List.flatMap_cons]
    rw [List.zip_append (by
      rw [length_filterMap_mask (m y) (a y), length_filterMap_mask (m y) (b y)])]
    rw [zip_filterMap_mask (m y) (a y) (b y), zip_mask_flatMap w m a b t]

theorem map_flatMap' {α β γ : Type} (f : β → γ) (g : α → List β) :
    ∀ l : List α, (l.flatMap g).map f = l.flatMap (fun a => (g a).map f)
  | [] => rfl
  | x :: t => by
    simp only [List.flatMap_cons, List.map_append, map_flatMap' f g t]

theorem length_flatMap' {α β : Type} (g : α → List β) :
    ∀ l : List α, (l.flatMap g).length = (l.map (fun a => (g a).length)).sum
  | [] => rfl
  | x :: t => by
    simp only [List.flatMap_cons, List.length_append, List.map_cons, List.sum_cons,
      length_flatMap' g t]

theorem countP_flatMap' {α β : Type} (p : β → Bool) (g : α → List β) :
    ∀ l : List α, (l.flatMap g).countP p = (l.map (fun a => (g a).countP p)).sum
  | [] => rfl
  | x :: t => by
    simp only [List.flatMap_cons, List.countP_append, List.map_cons, List.sum_cons,
      countP_flatMap' p g t]

theorem range_map_getD {α : Type} (d : α) :
    ∀ l : List α, (List.range l.length).map (fun i => l.getD i d) = l
  | [] => rfl
  | a :: t => by
    rw [List.length_cons, List.range_succ_eq_map, List.map_cons, List.map_map]
    simp only [Function.comp_def, Nat.succ_eq_add_one, List.getD_cons_succ,
      List.getD_cons_zero]
    rw [range_map_getD d t]

theorem grid_index (w : Nat) :
    ∀ h : Nat, (List.range h).flatMap (fun y => (List.range w).map (fun x => y * w + x)) =
      List.range (h * w)
  | 0 => by simp
  | h + 1 => by
    rw [List.range_succ, List.flatMap_append, grid_index w h]
    simp only [List.flatMap_cons, List.flatMap_nil, List.append_nil]
    rw [Nat.succ_mul, List.range_add]

theorem length_filterMap_pguard {α : Type} (p : Nat → Prop) [DecidablePred p]
    (g : Nat → α) :
    ∀ l : List Nat,
      (l.filterMap (fun x => if p x then some (g x) else none)).length =
        l.countP (fun x => decide (p x))
  | [] => rfl
  | x :: t => by
    by_cases hp : p x
    · simp [List.filterMap_cons, hp, List.countP_cons, length_filterMap_pguard p g t]
    · simp [List.filterMap_cons, hp, List.countP_cons, length_filterMap_pguard p g t]

theorem map_rows {α β : Type} (d : α → β) (F : Nat → Nat → α) (w : Nat) :
    ∀ l : List Nat,
      (l.map (fun y => (List.range w).map (F y))).map (fun row => row.map d) =
      l.map (fun y => (List.range w).map (fun x => d (F y x)))
  | [] => rfl
  | y :: t => by
    simp only [List.map_cons, List.map_map, map_rows d F w t]
    rfl

/-- `pointCloudSpec` with its `let` expanded, for rewriting. -/
theorem pointCloudSpec_eq (wd ht : Nat) (data : List ℚ) (flip : Bool) (c : Calibration) :
    pointCloudSpec wd ht data flip c =
      (List.range ht).flatMap (fun y => (List.range wd).filterMap (fun x =>
        if 0 < data.getD (y * wd + x) 0 * c.scale_z * c.pixel_to_mm_z then
          some
            ((if flip then -(((x : ℚ) - ((wd : ℚ) - 1) / 2) * c.pixel_to_mm_x)
              else ((x : ℚ) - ((wd : ℚ) - 1) / 2) * c.pixel_to_mm_x),
             ((y : ℚ) - ((ht : ℚ) - 1) / 2) * c.stretch_y,
             -(data.getD (y * wd + x) 0 * c.scale_z * c.pixel_to_mm_z))
        else none)) := rfl

theorem point_cloud_ok (comp : PyComponent) (rest : PyFrame) (flip : Bool)
    (cal : Option Calibration) (hlen : comp.data.length = comp.height * comp.width) :
    build_point_cloud_from_frame (comp :: rest) flip cal =
      .ok (pointCloudSpec comp.width comp.height comp.data flip
        (cal.getD defaultCalibration)) := by
  rw [pointCloudSpec_eq]
  simp only [build_point_cloud_from_frame, Option.getD_some]
  rw [if_neg (not_not_intro hlen)]
  unfold map2D meshgridXs meshgridYs reshapeRows
  simp only [map_rows]
  rw [maskSelect_rows, maskSelect_rows, maskSelect_rows]
  cases flip with
  | false =>
    simp only [Bool.false_eq_true, if_false]
    rw [map_flatMap']
    simp only [List.map_filterMap, apply_ite (Option.map (fun q : ℚ => -q)),
      Option.map_some', Option.map_none']
    rw [zip_mask_flatMap, zip_mask_flatMap]
    simp only [decide_eq_true_eq]
  | true =>
    simp only [eq_self_iff_true, if_true]
    rw [map_flatMap', map_flatMap']
    simp only [List.map_filterMap, apply_ite (Option.map (fun q : ℚ => -q)),
      Option.map_some', Option.map_none']
    rw [zip_mask_flatMap, zip_mask_flatMap]
    simp only [decide_eq_true_eq]

theorem point_cloud_len (wd ht : Nat) (data : List ℚ) (flip : Bool) (c : Calibration)
    (hlen : data.length = ht * wd) :
    (pointCloudSpec wd ht data flip c).length =
      data.countP (fun r => decide (0 < r * c.scale_z * c.pixel_to_mm_z)) := by
  conv_rhs => rw [← range_map_getD (0:ℚ) data, List.countP_map, hlen, ← grid_index wd ht]
  rw [countP_flatMap', pointCloudSpec_eq, length_flatMap']
  congr 1
  apply List.map_congr_left
  intro y _
  rw [List.countP_map, length_filterMap_pguard
    (fun x => 0 < data.getD (y * wd + x) 0 * c.scale_z * c.pixel_to_mm_z)]
  rfl

/-- C7: `build_point_cloud_from_frame` is a pure function of the frame's
first component: given width `w`, height `h` and a length-`w*h` data array,
it returns the points of `pointCloudSpec` — one point per pixel whose
metric depth `raw * scale_z * pixel_to_mm_z` is strictly positive, with
coordinates `((x-(w-1)/2)*pixel_to_mm_x` (negated under `flip_yx`),
`(y-(h-1)/2)*stretch_y`, `-(raw*scale_z*pixel_to_mm_z))` — and the number
of returned points is the count of data entries with strictly positive
metric depth. -/
theorem build_point_cloud_pure_formula (comp : PyComponent) (rest : PyFrame)
    (flip : Bool) (cal : Option Calibration)
    (hlen : comp.data.length = comp.height * comp.width) :
    build_point_cloud_from_frame (comp :: rest) flip cal =
      .ok (pointCloudSpec comp.width comp.height comp.data flip
        (cal.getD defaultCalibration)) ∧
    (pointCloudSpec comp.width comp.height comp.data flip
        (cal.getD defaultCalibration)).length =
      comp.data.countP (fun r => decide (0 < r * (cal.getD defaultCalibration).scale_z *
        (cal.getD defaultCalibration).pixel_to_mm_z)) :=
  ⟨point_cloud_ok comp rest flip cal hlen,
   point_cloud_len comp.width comp.height comp.data flip _ hlen⟩

/-- Witness for C7: a 2x1 frame with one positive-depth pixel under the
default calibration yields exactly the predicted single point. -/
theorem build_point_cloud_pure_formula_witness :
    build_point_cloud_from_frame [⟨2, 1, [16, 0]⟩] false none =
      .ok [(-7/160, 0, -391/2000)] ∧
    (pointCloudSpec 2 1 [16, 0] false defaultCalibration).length = 1 := by
  have h := build_point_cloud_pure_formula ⟨2, 1, [16, 0]⟩ [] false none rfl
  constructor
  · rw [h.1]
    norm_num [pointCloudSpec, defaultCalibration, List.range_succ, List.range_zero,
      List.flatMap_cons, List.flatMap_nil, List.filterMap_cons]
  · have h2 := h.2
    norm_num [defaultCalibration, List.countP_cons] at h2
    exact h2
